import Mathlib

/-!
Verification of the world_aq data pipeline core
(station matching, acquisition, normalization, outlier rejection,
multi-station fusion, gap-bounded interpolation).

Each Python function under scrutiny is shallow-embedded as an executable
Lean definition over explicit data; machine floats are modelled by ℚ
(the arithmetic in the relevant code paths is linear rational
arithmetic), missing values (NaN/None) by `Option`, and Python
exceptions by `Except`.
-/

namespace WorldAQ

/-! ## Gap-bounded interpolation
`NOAADataProcessor.interpolate_missing_values`
(src/data/processing/noaa_processor.py lines 291–343) applies
`Series.interpolate(method="time", limit)` per numeric column over a
date-sorted daily `DatetimeIndex`.  A column over consecutive days is
modelled as `List (Option ℚ)` (position = day offset, `none` = NaN).

pandas semantics for `interpolate(method="time", limit=k)` on such an
index (default `limit_direction="forward"`, `limit_area=None`):
 * a NaN with no valid value before it stays NaN;
 * a NaN with value `a` at the previous valid index `p` and value `b`
   at the next valid index `n` is interpolated linearly in the index:
   `a + (i-p)·(b-a)/(n-p)`;
 * a trailing NaN (valid before, none after) is padded with `a`;
 * within each consecutive NaN run, only the first `k` positions are
   filled (forward limit); the rest stay NaN.
-/

/-- Index and value of the last non-null entry strictly before position `i`. -/
def lastValidBefore (xs : List (Option ℚ)) : ℕ → Option (ℕ × ℚ)
  | 0 => none
  | j + 1 =>
    match xs.getD j none with
    | some v => some (j, v)
    | none => lastValidBefore xs j

/-- First non-null entry of a list, together with its offset. -/
def firstValid : List (Option ℚ) → Option (ℕ × ℚ)
  | [] => none
  | some v :: _ => some (0, v)
  | none :: t => (firstValid t).map (fun q => (q.1 + 1, q.2))

/-- Index and value of the first non-null entry strictly after position `i`. -/
def nextValidAfter (xs : List (Option ℚ)) (i : ℕ) : Option (ℕ × ℚ) :=
  (firstValid (xs.drop (i + 1))).map (fun q => (i + 1 + q.1, q.2))

/-- Value of `Series.interpolate(method="time", limit)` at position `i`
for a series over consecutive days. -/
def interpOne (xs : List (Option ℚ)) (limit : ℕ) (i : ℕ) : Option ℚ :=
  match xs.getD i none with
  | some v => some v
  | none =>
    match lastValidBefore xs i with
    | none => none
    | some (p, a) =>
      if i - p ≤ limit then
        match nextValidAfter xs i with
        | some (n, b) => some (a + ((i : ℚ) - (p : ℚ)) * (b - a) / ((n : ℚ) - (p : ℚ)))
        | none => some a
      else none

/-- `Series.interpolate(method="time", limit)` on a consecutive-day series. -/
def pandasInterpTime (xs : List (Option ℚ)) (limit : ℕ) : List (Option ℚ) :=
  (List.range xs.length).map (interpOne xs limit)

/-- One iteration of the per-column loop of `interpolate_missing_values`
(noaa_processor.py lines 328–341): returns the column after
interpolation together with the `{col}_interpolated` flag column
(`none` when the code adds no flag column). -/
def interpolateColumn (xs : List (Option ℚ)) (limit : ℕ) :
    List (Option ℚ) × Option (List Bool) :=
  let missingBefore := xs.countP (fun c => c.isNone)
  if missingBefore = 0 then (xs, none)
  else
    let mask := xs.map (fun c => c.isNone)
    let ys := pandasInterpTime xs limit
    let interpolatedCount := missingBefore - ys.countP (fun c => c.isNone)
    if 0 < interpolatedCount then
      (ys, some (List.zipWith (fun m (y : Option ℚ) => m && y.isSome) mask ys))
    else (ys, none)

/-! ## Station matcher
`NOAAStationMatcher.find_nearest_stations`
(src/data/acquisition/noaa/matcher.py lines 119–160).  The function
computes a `distance_km` column with the haversine formula, keeps rows
with `distance_km < (max_distance_km or float("inf"))`, sorts by
`distance_km` ascending and takes the first `n` rows.  Only
comparisons of the distance column matter for the properties at issue,
so a catalog row is modelled by its identity and its computed
`distance_km` value (the haversine value is ≥ 0, and it is exactly 0
when the query point coincides with a station's coordinates).
`sort_values` is modelled by a sorting algorithm (`mergeSort`); the
properties proved below hold for every sorting algorithm. -/

/-- One row of the station catalog after the distance column is computed. -/
structure StationRow where
  sid : ℕ
  distance_km : ℚ
deriving DecidableEq

/-- Python `max_distance_km or float("inf")`: `or` takes its right
operand when the left is falsy (`None` or `0`).  `none` models `inf`. -/
def pyOrInf (maxD : Option ℚ) : Option ℚ :=
  match maxD with
  | none => none
  | some m => if m = 0 then none else some m

/-- `d < bound` where `bound = none` models `float("inf")`. -/
def ltBound (d : ℚ) (bound : Option ℚ) : Bool :=
  match bound with
  | none => true
  | some m => decide (d < m)

/-- `find_nearest_stations` (matcher.py lines 134–160): filter rows with
`distance_km < (max_distance_km or inf)`, sort ascending by
`distance_km`, take the first `n`. -/
def findNearestStations (catalog : List StationRow) (n : ℕ) (maxD : Option ℚ) :
    List StationRow :=
  let valid := catalog.filter (fun r => ltBound r.distance_km (pyOrInf maxD))
  let sorted := valid.mergeSort (fun r s => decide (r.distance_km ≤ s.distance_km))
  sorted.take n

/-! ## Outlier detection
`NOAADataProcessor._detect_outliers` (noaa_processor.py lines 121–143)
and `OpenAQDataProcessor.detect_outliers` (openaq_processor.py lines
172–205).  A weather frame is modelled by the set of core columns it
has (`present`) and its rows (one `Option ℚ` per field, `none` = NaN);
an OpenAQ frame holds a single pollutant value column. -/

/-- The core shared-schema weather fields. -/
inductive WField
  | temp_avg_c | temp_max_c | temp_min_c | dewpoint_c
  | precip_mm | wind_speed_kmh | visibility_km | station_pressure_hpa
deriving DecidableEq

/-- All core weather fields, in the order of `core_cols` in the source. -/
def WField.all : List WField :=
  [.temp_avg_c, .temp_max_c, .temp_min_c, .dewpoint_c,
   .precip_mm, .wind_speed_kmh, .visibility_km, .station_pressure_hpa]

/-- `NOAADataProcessor.OUTLIER_THRESHOLDS`: physical ranges per field
(`dewpoint_c` has no entry in the dict). -/
def noaaThresholds : WField → Option (ℚ × ℚ)
  | .temp_avg_c => some (-60, 60)
  | .temp_max_c => some (-60, 60)
  | .temp_min_c => some (-60, 60)
  | .dewpoint_c => none
  | .precip_mm => some (0, 2000)
  | .wind_speed_kmh => some (0, 300)
  | .visibility_km => some (0, 100)
  | .station_pressure_hpa => some (870, 1085)

/-- A weather DataFrame: which data columns exist, and the rows. -/
structure NoaaDF where
  present : WField → Bool
  rows : List (WField → Option ℚ)

/-- Result of `_detect_outliers`: data columns (same set), possibly new
`{col}_is_outlier` flag columns, and the flag values per row. -/
structure NoaaFlagged where
  present : WField → Bool
  rows : List (WField → Option ℚ)
  flagPresent : WField → Bool
  flags : List (WField → Bool)

/-- A field is processed by the `_detect_outliers` loop iff it has an
entry in `OUTLIER_THRESHOLDS`, the column exists, and the column has at
least one non-null value (`valid_count > 0`). -/
def noaaProcessed (df : NoaaDF) (f : WField) : Bool :=
  (noaaThresholds f).isSome && df.present f &&
    df.rows.any (fun r => (r f).isSome)

/-- `is_outlier` for one cell: `((col < min) | (col > max)) & col.notna()`. -/
def cellOutlier (thr : Option (ℚ × ℚ)) (c : Option ℚ) : Bool :=
  match thr, c with
  | some (lo, hi), some v => decide (v < lo) || decide (hi < v)
  | _, _ => false

/-- `NOAADataProcessor._detect_outliers` (lines 121–143). -/
def noaaDetectOutliers (df : NoaaDF) : NoaaFlagged :=
  { present := df.present
    rows := df.rows.map (fun r f =>
      if noaaProcessed df f && cellOutlier (noaaThresholds f) (r f) then none else r f)
    flagPresent := fun f => noaaProcessed df f
    flags := df.rows.map (fun r f =>
      noaaProcessed df f && cellOutlier (noaaThresholds f) (r f)) }

/-- The pollutants (plus `other` for ids outside the threshold dict,
where `OUTLIER_THRESHOLDS.get(pollutant, (0, 10000))` falls back to the
default). -/
inductive Pollutant
  | pm25 | pm10 | o3 | no2 | so2 | co | other
deriving DecidableEq

/-- `OpenAQDataProcessor.OUTLIER_THRESHOLDS.get(pollutant, (0, 10000))`. -/
def openaqThresholds : Pollutant → ℚ × ℚ
  | .pm25 => (0, 1000)
  | .pm10 => (0, 2000)
  | .o3 => (0, 1/2)
  | .no2 => (0, 2)
  | .so2 => (0, 1)
  | .co => (0, 50)
  | .other => (0, 10000)

/-- An OpenAQ frame for one pollutant: whether the value column exists,
and the value column itself. -/
structure OpenaqDF where
  hasCol : Bool
  vals : List (Option ℚ)

/-- `OpenAQDataProcessor.detect_outliers` (lines 172–205): returns the
value column after nulling outliers and the `{col}_is_outlier` flag
column (`none` when the code adds none). -/
def openaqDetectOutliers (df : OpenaqDF) (p : Pollutant) :
    List (Option ℚ) × Option (List Bool) :=
  if !df.hasCol then (df.vals, none)
  else if df.vals.all (fun c => c.isNone) then (df.vals, none)
  else
    (df.vals.map (fun c =>
        if cellOutlier (some (openaqThresholds p)) c then none else c),
      some (df.vals.map (fun c => cellOutlier (some (openaqThresholds p)) c)))

/-! ## C4: find_nearest_stations -/

/-- C4 (counterexample): the claim requires every returned distance to
be strictly below `max_distance_km` for every `max_distance_km`.  With
`max_distance_km = 0` the Python expression
`max_distance_km or float("inf")` evaluates to `inf` (0 is falsy), so a
station at distance 0 (query point at the station's coordinates, where
the haversine value is exactly 0) is returned even though `0 < 0` is
false. -/
theorem C4_counterexample :
    findNearestStations [⟨0, 0⟩] 3 (some 0) = [⟨0, 0⟩] ∧
    ¬ (∀ r ∈ findNearestStations [⟨0, 0⟩] 3 (some 0), r.distance_km < 0) := by
  have heval : findNearestStations [⟨0, 0⟩] 3 (some 0) = [⟨0, 0⟩] := by
    simp [findNearestStations, pyOrInf, ltBound]
  refine ⟨heval, fun hall => ?_⟩
  have := hall ⟨0, 0⟩ (by rw [heval]; exact List.mem_singleton.2 rfl)
  exact absurd this (by norm_num)

/-- C4 (amended): `find_nearest_stations` returns at most `n` rows,
sorted by non-decreasing distance; when `max_distance_km` is a nonzero
number every returned distance is strictly below it (a `None` or `0`
limit is treated as `float("inf")` by the `or` expression); and when no
station qualifies the result is the empty list rather than an error. -/
theorem C4_find_nearest_bounded_sorted
    (catalog : List StationRow) (n : ℕ) (maxD : Option ℚ) :
    (findNearestStations catalog n maxD).length ≤ n ∧
    List.Pairwise (fun r s : StationRow => r.distance_km ≤ s.distance_km)
      (findNearestStations catalog n maxD) ∧
    (∀ m : ℚ, maxD = some m → m ≠ 0 →
      ∀ r ∈ findNearestStations catalog n maxD, r.distance_km < m) ∧
    (catalog.filter (fun r => ltBound r.distance_km (pyOrInf maxD)) = [] →
      findNearestStations catalog n maxD = []) := by
  refine ⟨?_, ?_, ?_, ?_⟩
  · rw [findNearestStations]
    exact le_of_le_of_eq (le_of_eq (List.length_take _ _)) rfl |>.trans_eq rfl |>.trans
      (by exact inf_le_left)
  · rw [findNearestStations]
    refine List.Pairwise.sublist (List.take_sublist _ _) ?_
    have hsorted := @List.sorted_mergeSort StationRow
      (fun r s => decide (r.distance_km ≤ s.distance_km))
      (fun a b c hab hbc => by
        simp only [decide_eq_true_eq] at *
        exact le_trans hab hbc)
      (fun a b => by
        simp only [Bool.or_eq_true, decide_eq_true_eq]
        exact le_total _ _)
      (catalog.filter (fun r => ltBound r.distance_km (pyOrInf maxD)))
    exact hsorted.imp (fun h => by simpa using h)
  · intro m hm hm0 r hr
    rw [findNearestStations] at hr
    have hr2 : r ∈ (catalog.filter
        (fun r => ltBound r.distance_km (pyOrInf maxD))).mergeSort
        (fun r s => decide (r.distance_km ≤ s.distance_km)) :=
      List.mem_of_mem_take hr
    have hr3 : r ∈ catalog.filter (fun r => ltBound r.distance_km (pyOrInf maxD)) :=
      (List.mergeSort_perm _ _).mem_iff.1 hr2
    have hcond := (List.mem_filter.1 hr3).2
    rw [hm] at hcond
    simp only [pyOrInf] at hcond
    rw [if_neg hm0] at hcond
    simpa [ltBound] using hcond
  · intro hempty
    rw [findNearestStations, hempty]
    simp

/-- C4 (witness): applying the theorem to a two-station catalog with
distances 5 and 20 and `max_distance_km = 10`. -/
theorem C4_find_nearest_bounded_sorted_witness :
    (findNearestStations [⟨1, 5⟩, ⟨2, 20⟩] 3 (some 10)).length ≤ 3 ∧
    (⟨1, 5⟩ : StationRow).distance_km < 10 := by
  have h := C4_find_nearest_bounded_sorted [⟨1, 5⟩, ⟨2, 20⟩] 3 (some 10)
  refine ⟨h.1, ?_⟩
  apply h.2.2.1 10 rfl (by norm_num)
  have heval : findNearestStations [⟨1, 5⟩, ⟨2, 20⟩] 3 (some 10) = [⟨1, 5⟩] := by
    simp [findNearestStations, pyOrInf, ltBound, List.filter]
    norm_num
  rw [heval]
  exact List.mem_singleton.2 rfl

/-- Observation helper: input cell `i, f` of a weather frame. -/
def noaaInVal (df : NoaaDF) (i : ℕ) (f : WField) : Option ℚ :=
  (df.rows.getD i (fun _ => none)) f

/-- Observation helper: output cell `i, f` after `_detect_outliers`. -/
def noaaOutVal (df : NoaaDF) (i : ℕ) (f : WField) : Option ℚ :=
  ((noaaDetectOutliers df).rows.getD i (fun _ => none)) f

/-- Observation helper: output flag `i, f` after `_detect_outliers`. -/
def noaaOutFlag (df : NoaaDF) (i : ℕ) (f : WField) : Bool :=
  ((noaaDetectOutliers df).flags.getD i (fun _ => false)) f

/-! ## NOAA point-HTTP client
`NOAAClient.download_year` (src/data/acquisition/noaa/client.py lines
23–79).  The local file `{output_dir}/{year}_{sid}.csv` and the URL
`{base_url}/{year}/{sid}.csv` are both determined by the pair
(year, dash-stripped station id); since only equality of these
deterministic names matters, station ids are modelled as opaque tokens
and a path/URL by its `StationYear` pair.  The network is an
environment mapping each station-year URL to its outcome; the on-disk
cache is an association list.  Exceptions escaping the `try` body are
made explicit in an `Except` channel; the two `except` clauses
(`requests.exceptions.HTTPError`, then `Exception`) absorb them. -/

/-- Outcome of `requests.get` + `raise_for_status` for one URL. -/
inductive HttpResult
  | ok (content : ℕ)
  | httpError
  | transportError
deriving DecidableEq

/-- Cache key of one station-year file. -/
structure StationYear where
  year : ℕ
  stationId : ℕ
deriving DecidableEq

/-- The on-disk cache: path ↦ file content. -/
def Cache := List (StationYear × ℕ)

def cacheLookup (w : Cache) (k : StationYear) : Option ℕ :=
  (w.find? (fun kv => kv.1 = k)).map (fun kv => kv.2)

def cacheWrite (w : Cache) (k : StationYear) (c : ℕ) : Cache :=
  (k, c) :: w

/-- Exceptions that can escape the `try` body of `download_year`. -/
inductive PyError
  | httpError
  | otherError
deriving DecidableEq

/-- The body of `download_year` (cache check, GET, raise_for_status,
persist): result, cache afterwards, number of HTTP GETs issued. -/
def downloadYearBody (env : StationYear → HttpResult) (w : Cache)
    (k : StationYear) (useCache : Bool) :
    Except PyError (Option StationYear) × Cache × ℕ :=
  if useCache && (cacheLookup w k).isSome then
    (.ok (some k), w, 0)
  else
    match env k with
    | .ok c => (.ok (some k), cacheWrite w k c, 1)
    | .httpError => (.error .httpError, w, 1)
    | .transportError => (.error .otherError, w, 1)

/-- `download_year`: `except HTTPError: return None` and
`except Exception: return None` absorb both error classes. -/
def downloadYear (env : StationYear → HttpResult) (w : Cache)
    (k : StationYear) (useCache : Bool) : Option StationYear × Cache × ℕ :=
  match downloadYearBody env w k useCache with
  | (.ok r, w', n) => (r, w', n)
  | (.error .httpError, w', n) => (none, w', n)
  | (.error .otherError, w', n) => (none, w', n)

/-! ## OpenAQ S3 bulk downloader
`OpenAQS3Downloader` (src/data/acquisition/openaq/s3_downloader.py).
S3 keys are opaque tokens; the local cache path
`{year_cache_dir}/{filename}` of a key is determined by the key (the
filenames of distinct keys in the archive layout differ), so it is
modelled by the key's token.  The thread pool of `download_year_data`
is modelled by an explicit completion order: `as_completed` yields the
futures in an arbitrary permutation of the submission order, and each
worker's outcome depends only on its own key. -/

/-- One key from `list_objects_v2`: token plus whether it ends with
`.csv.gz`. -/
structure S3Entry where
  token : ℕ
  isCsvGz : Bool
deriving DecidableEq

/-- `_list_s3_files` (lines 56–86): an exception (`resp = none`) gives
`[]`; otherwise the `.csv.gz` keys, sorted. -/
def listS3Files (resp : Option (List S3Entry)) : List ℕ :=
  match resp with
  | none => []
  | some entries =>
    ((entries.filter (fun e => e.isCsvGz)).map (fun e => e.token)).mergeSort
      (fun a b => decide (a ≤ b))

/-- Local cache path of one downloaded object. -/
structure LocalPath where
  token : ℕ
deriving DecidableEq

/-- `download_single_file` (lines 119–144): a cache hit short-circuits;
otherwise one `get_object`, whose failure (`fetch = none`, the
`except Exception` branch) is tallied and turned into `None`. -/
def downloadSingleFile (cacheHas : ℕ → Bool) (fetch : ℕ → Option ℕ)
    (useCache : Bool) (key : ℕ) : Option LocalPath :=
  if useCache && cacheHas key then some ⟨key⟩
  else
    match fetch key with
    | some _ => some ⟨key⟩
    | none => none

/-- `download_year_data` (lines 88–156): empty listing short-circuits
to `[]`; otherwise the workers' results are collected in completion
order.  Returns (downloaded_files, failed_count, success_count). -/
def downloadYearData (s3Files : List ℕ) (completionOrder : List ℕ)
    (cacheHas : ℕ → Bool) (fetch : ℕ → Option ℕ) (useCache : Bool) :
    List LocalPath × ℕ × ℕ :=
  if s3Files = [] then ([], 0, 0)
  else
    (completionOrder.filterMap (fun i => (s3Files.get? i).bind
        (fun k => downloadSingleFile cacheHas fetch useCache k)),
      completionOrder.countP (fun i =>
        match s3Files.get? i with
        | some k => (downloadSingleFile cacheHas fetch useCache k).isNone
        | none => false),
      completionOrder.countP (fun i =>
        match s3Files.get? i with
        | some k => (downloadSingleFile cacheHas fetch useCache k).isSome
        | none => false))

/-! ## Multi-station fusion
`NOAADataProcessor.merge_multi_station_data` (noaa_processor.py lines
179–289) and `OpenAQDataProcessor.merge_multi_station_data`
(openaq_processor.py lines 207–293).  A station frame is modelled by
its present core columns and rows; `stations_info` by (id, optional
distance) records, mirroring `s.get("distance_km", 1)` /
`s.get("distance_m", 1000)`; the dict comprehension building
`distance_map` lets a later duplicate id overwrite an earlier one, so
the lookup takes the last matching entry.  `pd.concat` makes a column
union (a column missing from one frame reads NaN for its rows);
`groupby("date")` yields groups keyed by the sorted distinct dates;
`np.average(values, weights)` is the weighted sum divided by the
weight sum. -/

/-- One row of a processed NOAA station frame fed to the fuser. -/
structure SRow where
  date : ℕ
  val : WField → Option ℚ
  lat : Option ℚ
  lon : Option ℚ
  elev : Option ℚ

/-- One NOAA station frame: present core columns plus rows. -/
structure SDF where
  present : WField → Bool
  rows : List SRow

/-- One entry of `stations_info`. -/
structure StationInfo where
  station_id : String
  distance_km : Option ℚ

/-- `distance_map.get(station_id, 1)` where `distance_map =`
`{s["station_id"]: s.get("distance_km", 1) for s in stations_info}`. -/
def distLookup (infos : List StationInfo) (sid : String) : ℚ :=
  match infos.reverse.find? (fun s => s.station_id = sid) with
  | some s => s.distance_km.getD 1
  | none => 1

/-- `1.0 / max(distance_map.get(station_id, 1), 0.1)`. -/
def noaaWeight (infos : List StationInfo) (sid : String) : ℚ :=
  1 / max (distLookup infos sid) (1 / 10)

/-- One row of `combined` (station id and weight columns attached; a
column absent from the row's frame reads NaN after `pd.concat`). -/
structure CRow where
  date : ℕ
  val : WField → Option ℚ
  lat : Option ℚ
  lon : Option ℚ
  elev : Option ℚ
  sid : String
  weight : ℚ

/-- `pd.concat` of the tagged station frames. -/
def combinedRows (sdfs : List (String × SDF)) (infos : List StationInfo) : List CRow :=
  (sdfs.map (fun sd => sd.2.rows.map (fun r =>
    { date := r.date
      val := fun f => if sd.2.present f then r.val f else none
      lat := r.lat, lon := r.lon, elev := r.elev
      sid := sd.1
      weight := noaaWeight infos sd.1 }))).flatten

/-- `numeric_cols = [c for c in core_cols if c in combined.columns]`. -/
def numericCols (sdfs : List (String × SDF)) : List WField :=
  WField.all.filter (fun f => sdfs.any (fun sd => sd.2.present f))

/-- The group of `combined` rows with a given date. -/
def groupRows (crows : List CRow) (d : ℕ) : List CRow :=
  crows.filter (fun c => c.date = d)

/-- The keys of `combined.groupby("date")`: sorted distinct dates. -/
def groupDates (crows : List CRow) : List ℕ :=
  ((crows.map (fun c => c.date)).dedup).mergeSort (fun a b => decide (a ≤ b))

/-- The group members contributing a non-null value for a field. -/
def contributors (crows : List CRow) (d : ℕ) (f : WField) : List CRow :=
  (groupRows crows d).filter (fun c => (c.val f).isSome)

/-- `np.average(valid[col], weights=valid["_weight"])`. -/
def npAverage (l : List CRow) (f : WField) : ℚ :=
  (l.map (fun c => c.weight * (c.val f).getD 0)).sum / (l.map (fun c => c.weight)).sum

/-- One fused output row of the NOAA fuser. -/
structure FRow where
  date : ℕ
  val : WField → Option ℚ
  srcCount : WField → Option ℕ
  lat : Option ℚ
  lon : Option ℚ
  elev : Option ℚ
  station_count : ℕ
  data_source : String
  data_quality_score : Option ℚ

/-- One iteration of the per-date loop of the NOAA
`merge_multi_station_data` (lines 250–284). -/
def noaaFuseRow (crows : List CRow) (cols : List WField) (qc : Bool) (d : ℕ) : FRow :=
  let g := groupRows crows d
  let validColCount := (cols.filter (fun f => !(contributors crows d f).isEmpty)).length
  let firstLoc := (g.filter (fun c => c.lat.isSome)).head?
  { date := d
    val := fun f =>
      if f ∈ cols then
        (if (contributors crows d f).isEmpty then none
         else some (npAverage (contributors crows d f) f))
      else none
    srcCount := fun f =>
      if qc = true ∧ f ∈ cols then some (contributors crows d f).length
      else none
    lat := firstLoc.bind (fun c => c.lat)
    lon := firstLoc.bind (fun c => c.lon)
    elev := firstLoc.bind (fun c => c.elev)
    station_count := ((g.map (fun c => c.sid)).dedup).length
    data_source := "weighted_average"
    data_quality_score := if qc then
        some (if 0 < cols.length then
          (validColCount : ℚ) / (cols.length : ℚ) else 0)
      else none }

/-- NOAA `merge_multi_station_data`: empty input, the single-station
short-circuit (lines 200–218), and the weighted general case. -/
def noaaMerge (sdfs : List (String × SDF)) (infos : List StationInfo)
    (qc : Bool) : List FRow :=
  match sdfs with
  | [] => []
  | [sd] =>
    sd.2.rows.map (fun r =>
      { date := r.date
        val := fun f => if sd.2.present f then r.val f else none
        srcCount := fun f => if sd.2.present f then some 1 else none
        lat := r.lat, lon := r.lon, elev := r.elev
        station_count := 1
        data_source := "single_station"
        data_quality_score := some 1 })
  | _ :: _ :: _ =>
    (groupDates (combinedRows sdfs infos)).map
      (noaaFuseRow (combinedRows sdfs infos) (numericCols sdfs) qc)

/-- All pollutant columns, in dict order. -/
def Pollutant.all : List Pollutant :=
  [.pm25, .pm10, .o3, .no2, .so2, .co, .other]

/-- One row of a processed OpenAQ sensor frame fed to the fuser. -/
structure ORow where
  date : ℕ
  val : Pollutant → Option ℚ

/-- One OpenAQ sensor frame: present pollutant value columns plus rows. -/
structure ODF where
  present : Pollutant → Bool
  rows : List ORow

/-- One entry of the OpenAQ `stations_info` after the key extraction
(sensor/location id together with `s.get("distance_m", 1000)`). -/
structure OInfo where
  sensor_id : String
  distance_m : Option ℚ

/-- `distance_map.get(str(sensor_id), 1000)`. -/
def distLookupO (infos : List OInfo) (sid : String) : ℚ :=
  match infos.reverse.find? (fun s => s.sensor_id = sid) with
  | some s => s.distance_m.getD 1000
  | none => 1000

/-- `1.0 / max(distance_map.get(str(sensor_id), 1000), 100)`. -/
def openaqWeight (infos : List OInfo) (sid : String) : ℚ :=
  1 / max (distLookupO infos sid) 100

/-- One row of the OpenAQ `combined` frame. -/
structure OCRow where
  date : ℕ
  val : Pollutant → Option ℚ
  sid : String
  weight : ℚ

def combinedRowsO (sdfs : List (String × ODF)) (infos : List OInfo) : List OCRow :=
  (sdfs.map (fun sd => sd.2.rows.map (fun r =>
    { date := r.date
      val := fun f => if sd.2.present f then r.val f else none
      sid := sd.1
      weight := openaqWeight infos sd.1 }))).flatten

/-- The dynamically identified pollutant value columns of `combined`. -/
def numericColsO (sdfs : List (String × ODF)) : List Pollutant :=
  Pollutant.all.filter (fun f => sdfs.any (fun sd => sd.2.present f))

def groupRowsO (crows : List OCRow) (d : ℕ) : List OCRow :=
  crows.filter (fun c => c.date = d)

def groupDatesO (crows : List OCRow) : List ℕ :=
  ((crows.map (fun c => c.date)).dedup).mergeSort (fun a b => decide (a ≤ b))

def contributorsO (crows : List OCRow) (d : ℕ) (f : Pollutant) : List OCRow :=
  (groupRowsO crows d).filter (fun c => (c.val f).isSome)

def npAverageO (l : List OCRow) (f : Pollutant) : ℚ :=
  (l.map (fun c => c.weight * (c.val f).getD 0)).sum / (l.map (fun c => c.weight)).sum

/-- One fused output row of the OpenAQ fuser.  `station_count` is
`none` on the single-station path, which does not add the column. -/
structure OFRow where
  date : ℕ
  val : Pollutant → Option ℚ
  srcCount : Pollutant → Option ℕ
  station_count : Option ℕ
  data_source : String
  data_quality_score : ℚ

/-- One iteration of the per-date loop of the OpenAQ
`merge_multi_station_data` (lines 266–288): `source_count` is recorded
only for a field with at least one contributor. -/
def openaqFuseRow (crows : List OCRow) (cols : List Pollutant) (d : ℕ) : OFRow :=
  let g := groupRowsO crows d
  let validColCount := (cols.filter (fun f => !(contributorsO crows d f).isEmpty)).length
  { date := d
    val := fun f =>
      if f ∈ cols then
        (if (contributorsO crows d f).isEmpty then none
         else some (npAverageO (contributorsO crows d f) f))
      else none
    srcCount := fun f =>
      if f ∈ cols then
        (if (contributorsO crows d f).isEmpty then none
         else some (contributorsO crows d f).length)
      else none
    station_count := some ((g.map (fun c => c.sid)).dedup).length
    data_source := "weighted_average"
    data_quality_score := if 0 < cols.length then
        (validColCount : ℚ) / (cols.length : ℚ) else 0 }

/-- OpenAQ `merge_multi_station_data` (lines 207–293): the
single-station path (lines 225–229) sets only `data_source` and
`data_quality_score` on the frame — no `source_count`, no
`station_count`. -/
def openaqMerge (sdfs : List (String × ODF)) (infos : List OInfo) : List OFRow :=
  match sdfs with
  | [] => []
  | [sd] =>
    sd.2.rows.map (fun r =>
      { date := r.date
        val := fun f => if sd.2.present f then r.val f else none
        srcCount := fun _ => none
        station_count := none
        data_source := "single_station"
        data_quality_score := 1 })
  | _ :: _ :: _ =>
    (groupDatesO (combinedRowsO sdfs infos)).map
      (openaqFuseRow (combinedRowsO sdfs infos) (numericColsO sdfs))

/-- The claim-side per-station weight of the OpenAQ fuser, written with
the distance in kilometres: `1 / max(distance_km, 0.1)`. -/
def openaqClaimWeight (infos : List OInfo) (sid : String) : ℚ :=
  1 / max (distLookupO infos sid / 1000) (1 / 10)

/-! ## Source normalizers
`OpenAQDataProcessor.process_s3_data` (openaq_processor.py lines
58–115) and `NOAADataProcessor.process` (noaa_processor.py lines
31–60).  Python DataFrames are heap objects: a bare column assignment
`df["date"] = …` mutates the caller's object, while `df = df.dropna(…)`
rebinds the local name to a fresh copy.  Each embedded function
therefore returns the caller's frame as it stands after the call
alongside the computed result.  A datetime cell is modelled by its
parse result (`none` = NaT, otherwise (day, time-of-day);
`tz_localize(None).normalize()` zeroes the time-of-day); a value cell
by its `to_numeric` result; a units cell by its entry in the finite
unit table (`none` = NaN or an unlisted string). -/

/-- The units appearing in the `_convert_unit` tables. -/
inductive UnitTag
  | ugm3 | mgm3 | gm3 | ppm | ppb | ppt | unknown
deriving DecidableEq

/-- `TARGET_UNITS.get(pollutant, "µg/m³")`. -/
def targetUnits : Pollutant → UnitTag
  | .pm25 => .ugm3
  | .pm10 => .ugm3
  | .o3 => .ppm
  | .no2 => .ppm
  | .so2 => .ppm
  | .co => .ppm
  | .other => .ugm3

/-- `default_units.get(pollutant, "unknown")` (lines 108–109). -/
def defaultUnitsTag : Pollutant → UnitTag
  | .pm25 => .ugm3
  | .pm10 => .ugm3
  | .o3 => .ppm
  | .no2 => .ppm
  | .so2 => .ppm
  | .co => .ppm
  | .other => .unknown

/-- `_convert_unit` (lines 37–56); a `none` source unit (NaN cell)
matches no table entry and leaves the value unchanged. -/
def convertUnit (v : ℚ) (fromU : Option UnitTag) (toU : UnitTag) : ℚ :=
  match fromU with
  | none => v
  | some u =>
    if u = toU then v
    else if toU = .ugm3 then
      (if u = .mgm3 then v * 1000 else if u = .gm3 then v * 1000000 else v)
    else if toU = .ppm then
      (if u = .ppb then v / 1000 else if u = .ppt then v / 1000000 else v)
    else v

/-- One raw S3 row: parsed datetime, numeric value, units cell. -/
structure S3Row where
  dt : Option (ℕ × ℕ)
  value : Option ℚ
  units : Option UnitTag
deriving DecidableEq

/-- A raw S3 frame, together with the `date` column the caller's frame
may carry (raw frames have none; `process_s3_data` adds it in place). -/
structure S3DF where
  hasDatetime : Bool
  hasValue : Bool
  hasUnits : Bool
  rows : List S3Row
  dateCol : Option (List (Option (ℕ × ℕ)))
deriving DecidableEq

/-- One output row of `process_s3_data`: date, daily mean, unit. -/
structure DailyRow where
  date : ℕ
  value : ℚ
  unit : UnitTag

/-- Lines 87–111 applied to the current (copied) frame: coerce and drop
null values, convert units per row, aggregate daily means, sort by
date.  A missing `value` column raises `KeyError` at line 87, which the
`except Exception` turns into an empty result. -/
def processTail (rows : List S3Row) (hasValue hasUnits : Bool) (p : Pollutant) :
    List DailyRow :=
  if !hasValue then []
  else
    let kept := rows.filter (fun r => r.value.isSome)
    if kept.isEmpty then []
    else
      let tgt := targetUnits p
      let days := ((kept.map (fun r => (r.dt.getD (0, 0)).1)).dedup).mergeSort
        (fun a b => decide (a ≤ b))
      days.map (fun d =>
        let g := kept.filter (fun r => (r.dt.getD (0, 0)).1 = d)
        { date := d
          value := (g.map (fun r =>
              if hasUnits then convertUnit (r.value.getD 0) r.units tgt
              else r.value.getD 0)).sum / (g.length : ℚ)
          unit := if hasUnits then tgt else defaultUnitsTag p })

/-- `process_s3_data` (lines 58–115): returns the caller's frame after
the call and the daily result.  Line 75 writes the parsed `date` column
into the caller's frame; when some dates fail to parse, line 78 rebinds
to a copy and the caller keeps the raw parse column; when every date
parses on a nonempty frame, line 84 (normalize) — and line 87's value
coercion — still hit the caller's object before line 88 rebinds. -/
def openaqProcessS3 (df : S3DF) (p : Pollutant) : S3DF × List DailyRow :=
  if !df.hasDatetime then (df, [])
  else
    let parsed := df.rows.map (fun r => r.dt)
    let invalid := parsed.countP (fun c => c.isNone)
    if 0 < invalid then
      let df1 := { df with dateCol := some parsed }
      let kept := df.rows.filter (fun r => r.dt.isSome)
      if kept.isEmpty then (df1, [])
      else (df1, processTail kept df.hasValue df.hasUnits p)
    else
      if df.rows.isEmpty then ({ df with dateCol := some parsed }, [])
      else
        let normalized := parsed.map (Option.map (fun q => (q.1, 0)))
        let df2 := { df with dateCol := some normalized }
        if !df.hasValue then (df2, [])
        else (df2, processTail df.rows df.hasValue df.hasUnits p)

/-- One raw NOAA GSOD row (identity columns plus the numeric columns
read by `process`; `FRSHTT` and `STATION` are opaque tokens). -/
structure RawRow where
  station : ℕ
  date : ℕ
  lat : Option ℚ
  lon : Option ℚ
  elev : Option ℚ
  frshtt : ℕ
  temp : Option ℚ
  dewp : Option ℚ
  slp : Option ℚ
  stp : Option ℚ
  visib : Option ℚ
  wdsp : Option ℚ
  maxT : Option ℚ
  minT : Option ℚ
  prcp : Option ℚ

/-- A raw NOAA frame: which optional numeric columns the file carries
(the temperature family TEMP/MAX/MIN/DEWP travels together, as
`_convert_units` reads all four when TEMP is present). -/
structure RawNoaaDF where
  hasTemp : Bool
  hasPrcp : Bool
  hasWdsp : Bool
  hasVisib : Bool
  hasSlp : Bool
  hasStp : Bool
  rows : List RawRow

/-- `result[col].replace(missing_val, np.nan)` for one cell. -/
def cleanCell (sentinel : ℚ) (c : Option ℚ) : Option ℚ :=
  c.bind (fun v => if v = sentinel then none else some v)

/-- `_convert_units` + `_select_columns` for one row: sentinel
replacement (NOAA_MISSING_VALUES), then °F→°C, inches→mm, knots→km/h,
miles→km, and the SLP-fillna-STP pressure column. -/
def noaaConvertRow (df : RawNoaaDF) (r : RawRow) : WField → Option ℚ := fun f =>
  match f with
  | .temp_avg_c =>
    if df.hasTemp then (cleanCell (99999 / 10) r.temp).map (fun t => (t - 32) * 5 / 9)
    else none
  | .temp_max_c =>
    if df.hasTemp then (cleanCell (99999 / 10) r.maxT).map (fun t => (t - 32) * 5 / 9)
    else none
  | .temp_min_c =>
    if df.hasTemp then (cleanCell (99999 / 10) r.minT).map (fun t => (t - 32) * 5 / 9)
    else none
  | .dewpoint_c =>
    if df.hasTemp then (cleanCell (99999 / 10) r.dewp).map (fun t => (t - 32) * 5 / 9)
    else none
  | .precip_mm =>
    if df.hasPrcp then (cleanCell (9999 / 100) r.prcp).map (fun v => v * 254 / 10)
    else none
  | .wind_speed_kmh =>
    if df.hasWdsp then (cleanCell (9999 / 10) r.wdsp).map (fun v => v * 1852 / 1000)
    else none
  | .visibility_km =>
    if df.hasVisib then (cleanCell (9999 / 10) r.visib).map (fun v => v * 160934 / 100000)
    else none
  | .station_pressure_hpa =>
    if df.hasSlp && df.hasStp then
      ((cleanCell (99999 / 10) r.slp).orElse (fun _ => cleanCell (9999 / 10) r.stp))
    else if df.hasSlp then cleanCell (99999 / 10) r.slp
    else if df.hasStp then cleanCell (9999 / 10) r.stp
    else none

/-- Which shared-schema columns `_select_columns` produces. -/
def noaaSelectPresent (df : RawNoaaDF) : WField → Bool := fun f =>
  match f with
  | .temp_avg_c => df.hasTemp
  | .temp_max_c => df.hasTemp
  | .temp_min_c => df.hasTemp
  | .dewpoint_c => df.hasTemp
  | .precip_mm => df.hasPrcp
  | .wind_speed_kmh => df.hasWdsp
  | .visibility_km => df.hasVisib
  | .station_pressure_hpa => df.hasSlp || df.hasStp

/-- The identity columns `_select_columns` carries through. -/
structure MetaRow where
  station : ℕ
  date : ℕ
  lat : Option ℚ
  lon : Option ℚ
  elev : Option ℚ
  frshtt : ℕ

/-- `NOAADataProcessor.process` (lines 31–60): an empty frame is handed
back as is; otherwise `result = df.copy()` is taken first and every
subsequent write targets the copy, so the caller's frame component of
the result is the input itself.  The copy is cleaned, converted,
reduced to the shared schema and outlier-flagged (`none` result models
the empty-input early return of the raw frame). -/
def noaaProcess (df : RawNoaaDF) : RawNoaaDF × Option (List MetaRow × NoaaFlagged) :=
  if df.rows.isEmpty then (df, none)
  else
    (df,
      some (df.rows.map (fun r => ⟨r.station, r.date, r.lat, r.lon, r.elev, r.frshtt⟩),
        noaaDetectOutliers ⟨noaaSelectPresent df, df.rows.map (noaaConvertRow df)⟩))

end WorldAQ

namespace WorldAQ

/-! ## Helper lemmas -/

lemma lastValidBefore_run (xs : List (Option ℚ)) (p : ℕ) (a : ℚ)
    (hp : xs.getD p none = some a) (k : ℕ) (hk : 1 ≤ k)
    (hrun : ∀ t, p < t → t < p + k → xs.getD t none = none) :
    lastValidBefore xs (p + k) = some (p, a) := by
  induction k with
  | zero => omega
  | succ n ih =>
    rcases Nat.lt_or_ge 1 (n + 1) with h1 | h1
    · have hn : 1 ≤ n := by omega
      have hnone : xs.getD (p + n) none = none := hrun _ (by omega) (by omega)
      have hstep : lastValidBefore xs (p + (n + 1)) = lastValidBefore xs (p + n) := by
        show lastValidBefore xs ((p + n) + 1) = _
        rw [lastValidBefore, hnone]
      rw [hstep]
      exact ih hn (fun t ht1 ht2 => hrun t ht1 (by omega))
    · have hn : n = 0 := by omega
      subst hn
      show lastValidBefore xs (p + 1) = some (p, a)
      rw [lastValidBefore, hp]

lemma nextValidAfter_at (xs : List (Option ℚ)) (i : ℕ) (b : ℚ)
    (hlen : i + 1 < xs.length) (hb : xs.getD (i + 1) none = some b) :
    nextValidAfter xs i = some (i + 1, b) := by
  have hdrop : xs.drop (i + 1) = xs[i + 1] :: xs.drop (i + 2) :=
    List.drop_eq_getElem_cons hlen
  have hget : xs[i + 1] = some b := by
    rw [← List.getD_eq_getElem xs none hlen]; exact hb
  rw [nextValidAfter, hdrop, hget]
  simp [firstValid]

lemma nextValidAfter_step (xs : List (Option ℚ)) (i : ℕ)
    (hlen : i + 1 < xs.length) (hnone : xs.getD (i + 1) none = none) :
    nextValidAfter xs i = nextValidAfter xs (i + 1) := by
  have hdrop : xs.drop (i + 1) = xs[i + 1] :: xs.drop (i + 2) :=
    List.drop_eq_getElem_cons hlen
  have hget : xs[i + 1] = none := by
    rw [← List.getD_eq_getElem xs none hlen]; exact hnone
  rw [nextValidAfter, nextValidAfter, hdrop, hget]
  show (firstValid (none :: xs.drop (i + 2))).map _ = _
  rw [firstValid]
  cases h : firstValid (xs.drop (i + 2)) with
  | none => simp
  | some q =>
    show some ((i + 1 + (q.1 + 1), q.2) : ℕ × ℚ) = some (i + 1 + 1 + q.1, q.2)
    have harith : i + 1 + (q.1 + 1) = i + 1 + 1 + q.1 := by omega
    rw [harith]

lemma nextValidAfter_run (xs : List (Option ℚ)) (p L : ℕ) (b : ℚ)
    (hb : xs.getD (p + L + 1) none = some b)
    (hlen : p + L + 1 < xs.length)
    (hrun : ∀ t, p < t → t ≤ p + L → xs.getD t none = none) :
    ∀ k, 1 ≤ k → k ≤ L → nextValidAfter xs (p + k) = some (p + L + 1, b) := by
  have main : ∀ d k, 1 ≤ k → k ≤ L → L - k = d →
      nextValidAfter xs (p + k) = some (p + L + 1, b) := by
    intro d
    induction d with
    | zero =>
      intro k hk1 hk2 hd
      have hkL : k = L := by omega
      subst hkL
      exact nextValidAfter_at xs (p + k) b (by omega) hb
    | succ n ih =>
      intro k hk1 hk2 hd
      have hnext : xs.getD (p + k + 1) none = none := hrun _ (by omega) (by omega)
      have hstep := nextValidAfter_step xs (p + k) (by omega) hnext
      rw [hstep]
      exact ih (k + 1) (by omega) (by omega) (by omega)
  intro k hk1 hk2
  exact main (L - k) k hk1 hk2 rfl

lemma interpOne_run (xs : List (Option ℚ)) (limit p L : ℕ) (a b : ℚ)
    (hp : xs.getD p none = some a)
    (hrun : ∀ t, p < t → t ≤ p + L → xs.getD t none = none)
    (hb : xs.getD (p + L + 1) none = some b)
    (hlen : p + L + 1 < xs.length)
    (k : ℕ) (hk1 : 1 ≤ k) (hk2 : k ≤ L) :
    interpOne xs limit (p + k) =
      if k ≤ limit then some (a + (k : ℚ) * (b - a) / ((L : ℚ) + 1)) else none := by
  have hnone : xs.getD (p + k) none = none := hrun _ (by omega) (by omega)
  have hlast : lastValidBefore xs (p + k) = some (p, a) :=
    lastValidBefore_run xs p a hp k hk1 (fun t ht1 ht2 => hrun t ht1 (by omega))
  have hnext : nextValidAfter xs (p + k) = some (p + L + 1, b) :=
    nextValidAfter_run xs p L b hb hlen hrun k hk1 hk2
  simp only [interpOne, hnone, hlast, hnext]
  have hsub : p + k - p = k := by omega
  rw [hsub]
  split
  · congr 1
    push_cast
    ring_nf
  · rfl

lemma pandasInterpTime_getD (xs : List (Option ℚ)) (limit i : ℕ) (h : i < xs.length) :
    (pandasInterpTime xs limit).getD i none = interpOne xs limit i := by
  have hlen : i < (pandasInterpTime xs limit).length := by
    simp [pandasInterpTime]; exact h
  rw [List.getD_eq_getElem _ none hlen]
  simp [pandasInterpTime]

lemma pandasInterpTime_length (xs : List (Option ℚ)) (limit : ℕ) :
    (pandasInterpTime xs limit).length = xs.length := by
  simp [pandasInterpTime]

lemma interpOne_some (xs : List (Option ℚ)) (limit i : ℕ) (v : ℚ)
    (h : xs.getD i none = some v) : interpOne xs limit i = some v := by
  rw [interpOne, h]

lemma interpOne_isNone_mono (xs : List (Option ℚ)) (limit i : ℕ)
    (h : (interpOne xs limit i).isNone) : (xs.getD i none).isNone := by
  cases hx : xs.getD i none with
  | none => rfl
  | some v => rw [interpOne_some xs limit i v hx] at h; simp at h

lemma countP_isNone_le (l1 l2 : List (Option ℚ)) (hlen : l2.length = l1.length)
    (hmono : ∀ i, i < l2.length → (l2.getD i none).isNone → (l1.getD i none).isNone) :
    l2.countP (fun c => c.isNone) ≤ l1.countP (fun c => c.isNone) := by
  induction l1 generalizing l2 with
  | nil =>
    have h2 : l2 = [] := List.eq_nil_of_length_eq_zero (by simpa using hlen)
    subst h2; simp
  | cons h1 t1 ih =>
    match l2 with
    | [] => simp
    | h2 :: t2 =>
      simp only [List.countP_cons]
      have hm0 := hmono 0 (by simp)
      have htail : t2.countP (fun c => c.isNone) ≤ t1.countP (fun c => c.isNone) := by
        apply ih t2 (by simpa using hlen)
        intro i hi
        have := hmono (i + 1) (by simpa using Nat.succ_lt_succ hi)
        simpa using this
      cases hh2 : h2.isNone with
      | true =>
        have : h1.isNone = true := by simpa [hh2] using hm0
        simp [this, hh2]
        omega
      | false => simp [hh2]; omega

lemma countP_isNone_lt (l1 l2 : List (Option ℚ)) (hlen : l2.length = l1.length)
    (hmono : ∀ i, i < l2.length → (l2.getD i none).isNone → (l1.getD i none).isNone)
    (j : ℕ) (hj : j < l2.length) (h1 : (l1.getD j none).isNone)
    (h2 : ¬(l2.getD j none).isNone) :
    l2.countP (fun c => c.isNone) < l1.countP (fun c => c.isNone) := by
  induction l1 generalizing l2 j with
  | nil =>
    have h0 : l2 = [] := List.eq_nil_of_length_eq_zero (by simpa using hlen)
    subst h0; simp at hj
  | cons a1 t1 ih =>
    match l2 with
    | [] => simp at hj
    | a2 :: t2 =>
      simp only [List.countP_cons]
      have htailmono : ∀ i, i < t2.length → (t2.getD i none).isNone →
          (t1.getD i none).isNone := by
        intro i hi
        have := hmono (i + 1) (by simpa using Nat.succ_lt_succ hi)
        simpa using this
      match j with
      | 0 =>
        have ha1 : a1.isNone = true := by simpa using h1
        have ha2 : a2.isNone = false := by
          simp only [List.getD_cons_zero] at h2
          cases a2 <;> simp_all
        have := countP_isNone_le t1 t2 (by simpa using hlen) htailmono
        simp [ha1, ha2]
        omega
      | j' + 1 =>
        have hlt := ih t2 (by simpa using hlen) htailmono j'
          (by simpa using Nat.lt_of_succ_lt_succ hj) (by simpa using h1) (by simpa using h2)
        have hm0 := hmono 0 (by simp)
        cases hh2 : a2.isNone with
        | true =>
          have : a1.isNone = true := by simpa [hh2] using hm0
          simp [this, hh2]; omega
        | false =>
          simp [hh2]
          split <;> omega

/-! ## C1: gap-bounded interpolation -/

/-- C1 (counterexample): the claim states that a missing run of
`limit + 1` or more days is left entirely null.  On the series
`[0, NaN, NaN, NaN, NaN, 10]` with `limit = 3` (a 4-day run), pandas
fills the first 3 positions of the run (forward `limit` semantics) with
the linear values 2, 4, 6 and leaves only the 4th null, so position 1
of the run is not null. -/
theorem C1_counterexample :
    (interpolateColumn [some 0, none, none, none, none, some 10] 3).1 =
      [some 0, some 2, some 4, some 6, none, some 10] ∧
    ¬ (interpolateColumn [some 0, none, none, none, none, some 10] 3).1.getD 1 none
        = none := by
  constructor
  · norm_num [interpolateColumn, pandasInterpTime, interpOne, lastValidBefore,
      nextValidAfter, firstValid, List.range_succ]
  · norm_num [interpolateColumn, pandasInterpTime, interpOne, lastValidBefore,
      nextValidAfter, firstValid, List.range_succ]
    simp

/-- C1 (amended): for every daily series, positive `limit`, and maximal
interior missing run of length `L` (valid value `a` at index `p`,
missing at `p+1 … p+L`, valid value `b` at `p+L+1`), the interpolation
step fills position `p+k` of the run iff `k ≤ limit`, with the linear
value `a + k·(b-a)/(L+1)`; hence a run of length ≤ `limit` is fully
filled, a longer run keeps exactly its first `limit` positions filled
and the rest null, and every filled position is flagged in the
`{col}_interpolated` column. -/
theorem C1_interpolation_fills_first_limit_of_run
    (xs : List (Option ℚ)) (limit p L : ℕ) (a b : ℚ)
    (hlimit : 1 ≤ limit)
    (hp : xs.getD p none = some a)
    (hrun : ∀ t, p < t → t ≤ p + L → xs.getD t none = none)
    (hb : xs.getD (p + L + 1) none = some b)
    (hL : 1 ≤ L) (hlen : p + L + 1 < xs.length) (k : ℕ) (hk1 : 1 ≤ k) (hk2 : k ≤ L) :
    ((interpolateColumn xs limit).1.getD (p + k) none =
      if k ≤ limit then some (a + (k : ℚ) * (b - a) / ((L : ℚ) + 1)) else none) ∧
    (k ≤ limit → ∃ flags, (interpolateColumn xs limit).2 = some flags ∧
      flags.getD (p + k) false = true) := by
  have hpk_lt : p + k < xs.length := by omega
  have hp1_lt : p + 1 < xs.length := by omega
  have hx1 : xs.getD (p + 1) none = none := hrun (p + 1) (by omega) (by omega)
  have hmiss : ¬ xs.countP (fun c => c.isNone) = 0 := by
    have hmem : (none : Option ℚ) ∈ xs := by
      have := List.getElem_mem hp1_lt
      rwa [← List.getD_eq_getElem xs none hp1_lt, hx1] at this
    have : 0 < xs.countP (fun c => c.isNone) :=
      List.countP_pos_iff.2 ⟨none, hmem, rfl⟩
    omega
  have hys_run : ∀ j, 1 ≤ j → j ≤ L →
      (pandasInterpTime xs limit).getD (p + j) none =
        if j ≤ limit then some (a + (j : ℚ) * (b - a) / ((L : ℚ) + 1)) else none := by
    intro j hj1 hj2
    rw [pandasInterpTime_getD xs limit (p + j) (by omega)]
    exact interpOne_run xs limit p L a b hp hrun hb hlen j hj1 hj2
  have hys1 : (pandasInterpTime xs limit).getD (p + 1) none =
      some (a + (1 : ℚ) * (b - a) / ((L : ℚ) + 1)) := by
    rw [hys_run 1 le_rfl hL, if_pos hlimit]
    norm_num
  have hcount : (pandasInterpTime xs limit).countP (fun c => c.isNone) <
      xs.countP (fun c => c.isNone) :=
    countP_isNone_lt xs (pandasInterpTime xs limit)
      (pandasInterpTime_length xs limit)
      (fun i hi h => by
        rw [pandasInterpTime_length] at hi
        exact interpOne_isNone_mono xs limit i
          (by rwa [pandasInterpTime_getD xs limit i hi] at h))
      (p + 1) (by rw [pandasInterpTime_length]; exact hp1_lt)
      (by rw [hx1]; rfl)
      (by rw [hys1]; simp)
  have hpos : 0 < xs.countP (fun c => c.isNone) -
      (pandasInterpTime xs limit).countP (fun c => c.isNone) := Nat.sub_pos_of_lt hcount
  have hcol : interpolateColumn xs limit =
      (pandasInterpTime xs limit,
        some (List.zipWith (fun m (y : Option ℚ) => m && y.isSome)
          (xs.map (fun c => c.isNone)) (pandasInterpTime xs limit))) := by
    rw [interpolateColumn]
    simp only [if_neg hmiss, if_pos hpos]
  constructor
  · rw [hcol]
    exact hys_run k hk1 hk2
  · intro hklim
    refine ⟨_, by rw [hcol], ?_⟩
    have hml : (xs.map (fun c => c.isNone)).length = xs.length := by simp
    have hzlen : (List.zipWith (fun m (y : Option ℚ) => m && y.isSome)
        (xs.map (fun c => c.isNone)) (pandasInterpTime xs limit)).length = xs.length := by
      simp [pandasInterpTime_length]
    rw [List.getD_eq_getElem _ false (by rw [hzlen]; exact hpk_lt)]
    rw [List.getElem_zipWith, List.getElem_map]
    rw [← List.getD_eq_getElem xs none hpk_lt, hrun (p + k) (by omega) (by omega)]
    rw [← List.getD_eq_getElem _ none (by rw [pandasInterpTime_length]; exact hpk_lt)]
    rw [hys_run k hk1 hk2, if_pos hklim]
    rfl

/-- C1 (witness): on `[0, NaN, NaN, 6]` with `limit = 3`, a 2-day
interior run, position 1 is filled with the linear value 2 and flagged. -/
theorem C1_interpolation_fills_first_limit_of_run_witness :
    (interpolateColumn [some 0, none, none, some 6] 3).1.getD 1 none = some 2 ∧
    ∃ flags, (interpolateColumn [some 0, none, none, some 6] 3).2 = some flags ∧
      flags.getD 1 false = true := by
  have h := C1_interpolation_fills_first_limit_of_run
    [some 0, none, none, some 6] 3 0 2 0 6 (by norm_num)
    (by rfl) (by intro t ht1 ht2; interval_cases t <;> rfl) (by rfl) (by norm_num)
    (by norm_num) 1 (by norm_num) (by norm_num)
  refine ⟨?_, h.2 (by norm_num)⟩
  have h1 := h.1
  rw [if_pos (by norm_num : (1 : ℕ) ≤ 3)] at h1
  rw [h1]
  norm_num


/-! ## C5 and C10: outlier detection -/

lemma noaaDetectOutliers_rows_getD (df : NoaaDF) (i : ℕ) (hilt : i < df.rows.length) :
    (noaaDetectOutliers df).rows.getD i (fun _ => none) = fun f =>
      if noaaProcessed df f && cellOutlier (noaaThresholds f) (noaaInVal df i f)
      then none else noaaInVal df i f := by
  have hlen : i < ((noaaDetectOutliers df).rows).length := by
    simp [noaaDetectOutliers]; exact hilt
  rw [List.getD_eq_getElem _ _ hlen]
  simp only [noaaDetectOutliers]
  rw [List.getElem_map]
  funext f
  rw [noaaInVal, List.getD_eq_getElem _ _ hilt]

lemma noaaDetectOutliers_flags_getD (df : NoaaDF) (i : ℕ) (hilt : i < df.rows.length) :
    (noaaDetectOutliers df).flags.getD i (fun _ => false) = fun f =>
      noaaProcessed df f && cellOutlier (noaaThresholds f) (noaaInVal df i f) := by
  have hlen : i < ((noaaDetectOutliers df).flags).length := by
    simp [noaaDetectOutliers]; exact hilt
  rw [List.getD_eq_getElem _ _ hlen]
  simp only [noaaDetectOutliers]
  rw [List.getElem_map]
  funext f
  rw [noaaInVal, List.getD_eq_getElem _ _ hilt]

lemma cellOutlier_none (thr : Option (ℚ × ℚ)) : cellOutlier thr none = false := by
  cases thr with
  | none => rfl
  | some r => cases r; rfl

lemma cellOutlier_in_range (lo hi v : ℚ) (h1 : lo ≤ v) (h2 : v ≤ hi) :
    cellOutlier (some (lo, hi)) (some v) = false := by
  show (decide (v < lo) || decide (hi < v)) = false
  simp only [Bool.or_eq_false_iff, decide_eq_false_iff_not, not_lt]
  exact ⟨h1, h2⟩

lemma cellOutlier_out_of_range (lo hi v : ℚ) (h : v < lo ∨ hi < v) :
    cellOutlier (some (lo, hi)) (some v) = true := by
  show (decide (v < lo) || decide (hi < v)) = true
  rcases h with h | h <;> simp [h]

lemma openaq_pair_in_range (p : Pollutant) (v : ℚ)
    (h1 : (openaqThresholds p).1 ≤ v) (h2 : v ≤ (openaqThresholds p).2) :
    cellOutlier (some (openaqThresholds p)) (some v) = false := by
  have h := cellOutlier_in_range (openaqThresholds p).1 (openaqThresholds p).2 v h1 h2
  simpa using h

lemma openaq_pair_out_of_range (p : Pollutant) (v : ℚ)
    (h : v < (openaqThresholds p).1 ∨ (openaqThresholds p).2 < v) :
    cellOutlier (some (openaqThresholds p)) (some v) = true := by
  have hh := cellOutlier_out_of_range (openaqThresholds p).1 (openaqThresholds p).2 v h
  simpa using hh

lemma openaq_vals_getD (odf : OpenaqDF) (g : Option ℚ → Option ℚ) (j : ℕ)
    (hjlt : j < odf.vals.length) :
    (odf.vals.map g).getD j none = g (odf.vals.getD j none) := by
  have hlen : j < (odf.vals.map g).length := by simpa using hjlt
  rw [List.getD_eq_getElem _ _ hlen, List.getElem_map, ← List.getD_eq_getElem _ none hjlt]

lemma openaq_flags_getD (odf : OpenaqDF) (g : Option ℚ → Bool) (j : ℕ)
    (hjlt : j < odf.vals.length) :
    (odf.vals.map g).getD j false = g (odf.vals.getD j none) := by
  have hlen : j < (odf.vals.map g).length := by simpa using hjlt
  rw [List.getD_eq_getElem _ _ hlen, List.getElem_map, ← List.getD_eq_getElem _ none hjlt]

/-- C5: for both outlier detectors, the number of rows is preserved; a
value outside its field's physical range is set to null with its
`is_outlier` flag true; a null value stays null with a false flag; an
in-range value is never flagged and never modified. -/
theorem C5_outlier_detection_cellwise
    (df : NoaaDF) (i : ℕ) (hilt : i < df.rows.length) (f : WField)
    (odf : OpenaqDF) (p : Pollutant) (j : ℕ) (hjlt : j < odf.vals.length) :
    ((noaaDetectOutliers df).rows.length = df.rows.length ∧
     (noaaDetectOutliers df).flags.length = df.rows.length ∧
     (openaqDetectOutliers odf p).1.length = odf.vals.length) ∧
    ((noaaInVal df i f = none → noaaOutVal df i f = none ∧ noaaOutFlag df i f = false) ∧
     (∀ lo hi v, noaaThresholds f = some (lo, hi) → noaaInVal df i f = some v →
        lo ≤ v → v ≤ hi → noaaOutVal df i f = some v ∧ noaaOutFlag df i f = false) ∧
     (∀ lo hi v, noaaThresholds f = some (lo, hi) → noaaInVal df i f = some v →
        (v < lo ∨ hi < v) → df.present f = true →
        noaaOutVal df i f = none ∧ noaaOutFlag df i f = true ∧
          (noaaDetectOutliers df).flagPresent f = true)) ∧
    ((odf.vals.getD j none = none → (openaqDetectOutliers odf p).1.getD j none = none ∧
        ∀ flags, (openaqDetectOutliers odf p).2 = some flags →
          flags.getD j false = false) ∧
     (∀ v, odf.vals.getD j none = some v →
        (openaqThresholds p).1 ≤ v → v ≤ (openaqThresholds p).2 →
        (openaqDetectOutliers odf p).1.getD j none = some v ∧
        ∀ flags, (openaqDetectOutliers odf p).2 = some flags →
          flags.getD j false = false) ∧
     (∀ v, odf.vals.getD j none = some v →
        (v < (openaqThresholds p).1 ∨ (openaqThresholds p).2 < v) →
        odf.hasCol = true →
        (openaqDetectOutliers odf p).1.getD j none = none ∧
        ∃ flags, (openaqDetectOutliers odf p).2 = some flags ∧
          flags.getD j false = true)) := by
  have hrow := noaaDetectOutliers_rows_getD df i hilt
  have hflg := noaaDetectOutliers_flags_getD df i hilt
  refine ⟨⟨by simp [noaaDetectOutliers], by simp [noaaDetectOutliers], ?_⟩,
    ⟨?_, ?_, ?_⟩, ?_, ?_, ?_⟩
  · rw [openaqDetectOutliers]
    split
    · rfl
    · split
      · rfl
      · simp
  · intro hnull
    rw [noaaOutVal, noaaOutFlag, hrow, hflg]
    simp [hnull, cellOutlier_none]
  · intro lo hi v hthr hv h1 h2
    rw [noaaOutVal, noaaOutFlag, hrow, hflg]
    simp [hv, hthr, cellOutlier_in_range lo hi v h1 h2]
  · intro lo hi v hthr hv hout hpres
    have hproc : noaaProcessed df f = true := by
      rw [noaaProcessed, hthr, hpres]
      simp only [Option.isSome_some, Bool.true_and, Bool.and_true, true_and]
      refine List.any_eq_true.2 ⟨df.rows[i], List.getElem_mem hilt, ?_⟩
      rw [noaaInVal, List.getD_eq_getElem _ _ hilt] at hv
      rw [hv]
      rfl
    rw [noaaOutVal, noaaOutFlag, hrow, hflg]
    simp [hv, hthr, cellOutlier_out_of_range lo hi v hout, hproc, noaaDetectOutliers]
  · intro hnull
    rw [openaqDetectOutliers]
    split
    · exact ⟨hnull, by intro flags h; simp at h⟩
    · split
      · exact ⟨hnull, by intro flags h; simp at h⟩
      · refine ⟨?_, ?_⟩
        · rw [openaq_vals_getD odf _ j hjlt, hnull, cellOutlier_none]
          rfl
        · intro flags hfl
          have hfl2 : flags = odf.vals.map
              (fun c => cellOutlier (some (openaqThresholds p)) c) := by
            simpa using hfl.symm
          subst hfl2
          rw [openaq_flags_getD odf _ j hjlt, hnull, cellOutlier_none]
  · intro v hv h1 h2
    have hc := openaq_pair_in_range p v h1 h2
    rw [openaqDetectOutliers]
    split
    · exact ⟨hv, by intro flags h; simp at h⟩
    · split
      · exact ⟨hv, by intro flags h; simp at h⟩
      · refine ⟨?_, ?_⟩
        · rw [openaq_vals_getD odf _ j hjlt, hv, hc]
          rfl
        · intro flags hfl
          have hfl2 : flags = odf.vals.map
              (fun c => cellOutlier (some (openaqThresholds p)) c) := by
            simpa using hfl.symm
          subst hfl2
          rw [openaq_flags_getD odf _ j hjlt, hv, hc]
  · intro v hv hout hcol
    have hc := openaq_pair_out_of_range p v hout
    have hnotall : ¬ odf.vals.all (fun c => c.isNone) = true := by
      intro hall
      have hmem : some v ∈ odf.vals := by
        rw [← hv, List.getD_eq_getElem _ none hjlt]
        exact List.getElem_mem hjlt
      have := List.all_eq_true.1 hall _ hmem
      simp at this
    rw [openaqDetectOutliers]
    rw [if_neg (by simp [hcol]), if_neg hnotall]
    refine ⟨?_, ?_⟩
    · rw [openaq_vals_getD odf _ j hjlt, hv, hc]
      rfl
    · refine ⟨_, rfl, ?_⟩
      rw [openaq_flags_getD odf _ j hjlt, hv, hc]

/-- C5 (witness): a weather frame whose only row has `temp_avg_c = 100`
(above the 60 °C bound) gets that cell nulled and flagged; an OpenAQ
pm25 column with the single value 2000 (above the 1000 µg/m³ bound)
gets it nulled. -/
theorem C5_outlier_detection_cellwise_witness :
    noaaOutVal ⟨fun _ => true, [fun _ => some 100]⟩ 0 WField.temp_avg_c = none ∧
    (openaqDetectOutliers ⟨true, [some 2000]⟩ Pollutant.pm25).1.getD 0 none = none := by
  have h := C5_outlier_detection_cellwise ⟨fun _ => true, [fun _ => some 100]⟩ 0
    (by norm_num) WField.temp_avg_c ⟨true, [some 2000]⟩ Pollutant.pm25 0 (by norm_num)
  refine ⟨?_, ?_⟩
  · exact (h.2.1.2.2 (-60) 60 100 rfl rfl (Or.inr (by norm_num)) rfl).1
  · exact (h.2.2.2.2 2000 rfl (Or.inr (by norm_num [openaqThresholds])) rfl).1

/-- C10: a tracked field whose values are all null gets no `is_outlier`
flag column and its values are untouched; the flag column exists only
when the field has at least one non-null value — for both processors. -/
theorem C10_no_flag_column_for_all_null_field (df : NoaaDF) (f : WField)
    (odf : OpenaqDF) (p : Pollutant) :
    ((∀ r ∈ df.rows, r f = none) →
      (noaaDetectOutliers df).flagPresent f = false ∧
      ∀ i, noaaOutVal df i f = noaaInVal df i f) ∧
    ((noaaDetectOutliers df).flagPresent f = true →
      df.present f = true ∧ ∃ r ∈ df.rows, (r f).isSome = true) ∧
    (odf.vals.all (fun c => c.isNone) = true →
      openaqDetectOutliers odf p = (odf.vals, none)) ∧
    (∀ flags, (openaqDetectOutliers odf p).2 = some flags →
      odf.hasCol = true ∧ ∃ c ∈ odf.vals, c.isSome = true) := by
  refine ⟨?_, ?_, ?_, ?_⟩
  · intro hall
    have hproc : noaaProcessed df f = false := by
      rw [noaaProcessed]
      have : df.rows.any (fun r => (r f).isSome) = false := by
        rw [List.any_eq_false]
        intro r hr
        rw [hall r hr]
        simp
      rw [this]
      simp
    constructor
    · exact hproc
    · intro i
      rcases Nat.lt_or_ge i df.rows.length with hlt | hge
      · rw [noaaOutVal, noaaDetectOutliers_rows_getD df i hlt]
        simp [hproc]
      · rw [noaaOutVal, noaaInVal, List.getD_eq_default, List.getD_eq_default]
        · exact hge
        · simpa [noaaDetectOutliers] using hge
  · intro hflag
    rw [show (noaaDetectOutliers df).flagPresent f = noaaProcessed df f from rfl] at hflag
    rw [noaaProcessed] at hflag
    have h1 : df.present f = true := by
      cases hp : df.present f
      · rw [hp] at hflag; simp at hflag
      · rfl
    have h2 : df.rows.any (fun r => (r f).isSome) = true := by
      cases ha : df.rows.any (fun r => (r f).isSome)
      · rw [ha] at hflag; simp at hflag
      · rfl
    obtain ⟨r, hr, hrs⟩ := List.any_eq_true.1 h2
    exact ⟨h1, r, hr, hrs⟩
  · intro hall
    rw [openaqDetectOutliers]
    split
    · rfl
    · rfl
  · intro flags hfl
    rw [openaqDetectOutliers] at hfl
    by_cases hcol : odf.hasCol
    · rw [if_neg (by simp [hcol])] at hfl
      by_cases hall : odf.vals.all (fun c => c.isNone) = true
      · rw [if_pos hall] at hfl
        simp at hfl
      · refine ⟨hcol, ?_⟩
        rcases List.exists_mem_of_ne_nil odf.vals (by
          intro hnil
          exact hall (by simp [hnil])) with ⟨c, hc⟩
        by_contra hnone
        push_neg at hnone
        apply hall
        rw [List.all_eq_true]
        intro c hc
        have := hnone c hc
        cases c
        · rfl
        · simp at this
    · rw [if_pos (by simp [hcol])] at hfl
      simp at hfl

/-- C10 (witness): a frame whose single row is entirely null produces
no flag column for `precip_mm` and leaves the cell untouched; an
all-null OpenAQ column is returned unchanged with no flag column. -/
theorem C10_no_flag_column_for_all_null_field_witness :
    (noaaDetectOutliers ⟨fun _ => true, [fun _ => none]⟩).flagPresent
      WField.precip_mm = false ∧
    openaqDetectOutliers ⟨true, [none, none]⟩ Pollutant.pm25 = ([none, none], none) := by
  have h := C10_no_flag_column_for_all_null_field ⟨fun _ => true, [fun _ => none]⟩
    WField.precip_mm ⟨true, [none, none]⟩ Pollutant.pm25
  refine ⟨(h.1 ?_).1, h.2.2.1 ?_⟩
  · intro r hr
    rcases List.mem_singleton.1 hr with rfl
    rfl
  · rfl


/-! ## C6: NOAA point-HTTP client -/

lemma cacheLookup_write (w : Cache) (k : StationYear) (c : ℕ) :
    cacheLookup (cacheWrite w k c) k = some c := by
  rw [cacheWrite, cacheLookup]
  rw [List.find?_cons_of_pos _ (by simp)]
  rfl

/-- C6: `download_year` never lets an exception reach the caller (the
two `except` clauses absorb every error the body can raise); an HTTP
error and any other transport failure both resolve to `None` with the
cache unchanged; on success the content is persisted to the cache in
the returned state and the path is returned; a warm-cache call returns
the cached path with zero GETs; and after one successful download a
second `use_cache` call is a warm-cache call returning the same path
with zero further GETs. -/
theorem C6_download_year_absorbs_failures_and_caches
    (env : StationYear → HttpResult) (w : Cache) (k : StationYear) (useCache : Bool) :
    (∀ e, (downloadYearBody env w k useCache).1 = .error e →
      (downloadYear env w k useCache).1 = none) ∧
    ((env k = .httpError ∨ env k = .transportError) →
      (useCache && (cacheLookup w k).isSome) = false →
      downloadYear env w k useCache = (none, w, 1)) ∧
    (∀ c, env k = .ok c → (useCache && (cacheLookup w k).isSome) = false →
      downloadYear env w k useCache = (some k, cacheWrite w k c, 1) ∧
      cacheLookup (cacheWrite w k c) k = some c) ∧
    ((cacheLookup w k).isSome = true →
      downloadYear env w k true = (some k, w, 0)) ∧
    (∀ c, env k = .ok c → (useCache && (cacheLookup w k).isSome) = false →
      downloadYear env (downloadYear env w k useCache).2.1 k true =
        (some k, (downloadYear env w k useCache).2.1, 0)) := by
  refine ⟨?_, ?_, ?_, ?_, ?_⟩
  · intro e he
    rw [downloadYear]
    rcases hb : downloadYearBody env w k useCache with ⟨r, w', n⟩
    rw [hb] at he
    simp at he
    subst he
    cases e <;> rfl
  · intro herr hcold
    rw [downloadYear, downloadYearBody, if_neg (by rw [hcold]; simp)]
    rcases herr with h | h <;> rw [h]
  · intro c hok hcold
    rw [downloadYear, downloadYearBody, if_neg (by rw [hcold]; simp)]
    rw [hok]
    exact ⟨rfl, cacheLookup_write w k c⟩
  · intro hwarm
    rw [downloadYear, downloadYearBody, if_pos (by rw [hwarm]; rfl)]
  · intro c hok hcold
    have h1 : downloadYear env w k useCache = (some k, cacheWrite w k c, 1) := by
      rw [downloadYear, downloadYearBody, if_neg (by rw [hcold]; simp), hok]
    rw [h1]
    rw [downloadYear, downloadYearBody,
      if_pos (by rw [cacheLookup_write w k c]; rfl)]

/-- C6 (witness): a cold-cache success at station-year (2023, 5) with
content 7 persists the file; the follow-up call is a pure cache hit. -/
theorem C6_download_year_absorbs_failures_and_caches_witness :
    downloadYear (fun _ => .ok 7) ([] : Cache) ⟨2023, 5⟩ true =
      (some ⟨2023, 5⟩, cacheWrite [] ⟨2023, 5⟩ 7, 1) ∧
    downloadYear (fun _ => .ok 7) (downloadYear (fun _ => .ok 7) ([] : Cache)
        ⟨2023, 5⟩ true).2.1 ⟨2023, 5⟩ true =
      (some ⟨2023, 5⟩, (downloadYear (fun _ => .ok 7) ([] : Cache) ⟨2023, 5⟩ true).2.1, 0) := by
  have h := C6_download_year_absorbs_failures_and_caches
    (fun _ => .ok 7) ([] : Cache) ⟨2023, 5⟩ true
  exact ⟨(h.2.2.1 7 rfl (by rfl)).1, h.2.2.2.2 7 rfl (by rfl)⟩

/-! ## C7: OpenAQ S3 bulk downloader -/

lemma filterMap_get_range (l : List ℕ) (f : ℕ → Option LocalPath) :
    (List.range l.length).filterMap (fun i => (l.get? i).bind f) = l.filterMap f := by
  induction l with
  | nil => rfl
  | cons a t ih =>
    show (List.range (t.length + 1)).filterMap _ = _
    rw [List.range_succ_eq_map]
    rw [List.filterMap_cons]
    rw [List.filterMap_map]
    have hcomp : ((fun i => ((a :: t).get? i).bind f) ∘ Nat.succ) =
        (fun i => (t.get? i).bind f) := rfl
    rw [hcomp, ih]
    cases hfa : f a with
    | none => simp [List.filterMap_cons, hfa]
    | some b => simp [List.filterMap_cons, hfa]

lemma countP_get_range (l : List ℕ) (q : Option LocalPath → Bool)
    (f : ℕ → Option LocalPath) :
    (List.range l.length).countP (fun i =>
        match l.get? i with
        | some k => q (f k)
        | none => false) =
      l.countP (fun k => q (f k)) := by
  induction l with
  | nil => rfl
  | cons a t ih =>
    show (List.range (t.length + 1)).countP _ = _
    rw [List.range_succ_eq_map]
    rw [List.countP_cons]
    rw [List.countP_map]
    have hcomp : ((fun i =>
        match (a :: t).get? i with
        | some k => q (f k)
        | none => false) ∘ Nat.succ) =
        (fun i =>
          match t.get? i with
          | some k => q (f k)
          | none => false) := rfl
    rw [hcomp, ih, List.countP_cons]
    simp only [List.get?_cons_zero]

lemma downloadSingleFile_some (cacheHas : ℕ → Bool) (fetch : ℕ → Option ℕ)
    (useCache : Bool) (k : ℕ)
    (h : (downloadSingleFile cacheHas fetch useCache k).isSome = true) :
    downloadSingleFile cacheHas fetch useCache k = some ⟨k⟩ := by
  by_cases hc : (useCache && cacheHas k) = true
  · rw [downloadSingleFile, if_pos hc]
  · rw [downloadSingleFile, if_neg hc] at h ⊢
    cases hf : fetch k with
    | some c => rfl
    | none => rw [hf] at h; simp at h

lemma filterMap_eq_map_filter (l : List ℕ) (cacheHas : ℕ → Bool)
    (fetch : ℕ → Option ℕ) (useCache : Bool) :
    l.filterMap (downloadSingleFile cacheHas fetch useCache) =
      (l.filter (fun k =>
        (downloadSingleFile cacheHas fetch useCache k).isSome)).map
        (fun k => (⟨k⟩ : LocalPath)) := by
  induction l with
  | nil => rfl
  | cons a t ih =>
    rw [List.filterMap_cons, List.filter_cons]
    cases hfa : (downloadSingleFile cacheHas fetch useCache a).isSome with
    | true =>
      rw [downloadSingleFile_some cacheHas fetch useCache a hfa]
      simp [ih]
    | false =>
      have hnone : downloadSingleFile cacheHas fetch useCache a = none := by
        cases h : downloadSingleFile cacheHas fetch useCache a
        · rfl
        · rw [h] at hfa; simp at hfa
      rw [hnone]
      simp [ih]

lemma filterMap_length_add_countP_none (l : List ℕ) (cacheHas : ℕ → Bool)
    (fetch : ℕ → Option ℕ) (useCache : Bool) :
    (l.filterMap (downloadSingleFile cacheHas fetch useCache)).length +
      l.countP (fun k => (downloadSingleFile cacheHas fetch useCache k).isNone) =
      l.length := by
  induction l with
  | nil => rfl
  | cons a t ih =>
    rw [List.filterMap_cons, List.countP_cons]
    cases hfa : downloadSingleFile cacheHas fetch useCache a with
    | none => simp only [hfa, Option.isNone_none]; simp; omega
    | some b => simp only [hfa, Option.isNone_some]; simp; omega

/-- C7: with the completion order an arbitrary permutation of the
submission order, `download_year_data` returns exactly the local paths
of the keys whose download succeeded (as a multiset); the failure tally
is the number of failed keys, successes plus failures exhaust the
listing; an empty listing gives `([], 0, 0)` rather than an error, and
a listing exception gives the empty key list. -/
theorem C7_download_year_data_partial_failure
    (s3Files : List ℕ) (completionOrder : List ℕ) (cacheHas : ℕ → Bool)
    (fetch : ℕ → Option ℕ) (useCache : Bool)
    (hperm : completionOrder.Perm (List.range s3Files.length)) :
    (downloadYearData s3Files completionOrder cacheHas fetch useCache).1.Perm
      ((s3Files.filter (fun k =>
        (downloadSingleFile cacheHas fetch useCache k).isSome)).map
        (fun k => (⟨k⟩ : LocalPath))) ∧
    (downloadYearData s3Files completionOrder cacheHas fetch useCache).2.1 =
      (s3Files.filter (fun k =>
        (downloadSingleFile cacheHas fetch useCache k).isNone)).length ∧
    (downloadYearData s3Files completionOrder cacheHas fetch useCache).1.length +
      (downloadYearData s3Files completionOrder cacheHas fetch useCache).2.1 =
      s3Files.length ∧
    (downloadYearData s3Files completionOrder cacheHas fetch useCache).2.2 =
      (s3Files.filter (fun k =>
        (downloadSingleFile cacheHas fetch useCache k).isSome)).length ∧
    (s3Files = [] →
      downloadYearData s3Files completionOrder cacheHas fetch useCache = ([], 0, 0)) ∧
    listS3Files none = [] := by
  by_cases hnil : s3Files = []
  · subst hnil
    refine ⟨?_, ?_, ?_, ?_, fun _ => rfl, rfl⟩ <;> rw [downloadYearData] <;> simp
  · have hval : downloadYearData s3Files completionOrder cacheHas fetch useCache =
        (completionOrder.filterMap (fun i => (s3Files.get? i).bind
            (fun k => downloadSingleFile cacheHas fetch useCache k)),
          completionOrder.countP (fun i =>
            match s3Files.get? i with
            | some k => (downloadSingleFile cacheHas fetch useCache k).isNone
            | none => false),
          completionOrder.countP (fun i =>
            match s3Files.get? i with
            | some k => (downloadSingleFile cacheHas fetch useCache k).isSome
            | none => false)) := by
      rw [downloadYearData, if_neg hnil]
    have hpaths : (downloadYearData s3Files completionOrder cacheHas fetch
        useCache).1.Perm (s3Files.filterMap
          (downloadSingleFile cacheHas fetch useCache)) := by
      rw [hval]
      exact (hperm.filterMap _).trans
        (by rw [filterMap_get_range s3Files
          (downloadSingleFile cacheHas fetch useCache)])
    have hfail : (downloadYearData s3Files completionOrder cacheHas fetch
        useCache).2.1 = s3Files.countP (fun k =>
          (downloadSingleFile cacheHas fetch useCache k).isNone) := by
      rw [hval]
      show completionOrder.countP _ = _
      rw [hperm.countP_eq]
      exact countP_get_range s3Files (fun c => c.isNone) _
    have hsucc : (downloadYearData s3Files completionOrder cacheHas fetch
        useCache).2.2 = s3Files.countP (fun k =>
          (downloadSingleFile cacheHas fetch useCache k).isSome) := by
      rw [hval]
      show completionOrder.countP _ = _
      rw [hperm.countP_eq]
      exact countP_get_range s3Files (fun c => c.isSome) _
    refine ⟨?_, ?_, ?_, ?_, fun h => absurd h hnil, rfl⟩
    · exact hpaths.trans (by
        rw [filterMap_eq_map_filter])
    · rw [hfail, List.countP_eq_length_filter]
    · rw [hfail, hpaths.length_eq]
      have := filterMap_length_add_countP_none s3Files cacheHas fetch useCache
      omega
    · rw [hsucc, List.countP_eq_length_filter]

/-- C7 (witness): 12 listed objects, downloads of keys 11 and 12 fail:
exactly 10 local paths are returned and the failure tally is 2. -/
theorem C7_download_year_data_partial_failure_witness :
    (downloadYearData [1, 2, 3, 4, 5, 6, 7, 8, 9, 10, 11, 12] (List.range 12)
      (fun _ => false) (fun k => if k ≤ 10 then some 0 else none) true).2.1 = 2 ∧
    (downloadYearData [1, 2, 3, 4, 5, 6, 7, 8, 9, 10, 11, 12] (List.range 12)
      (fun _ => false) (fun k => if k ≤ 10 then some 0 else none) true).1.length = 10 := by
  have h := C7_download_year_data_partial_failure
    [1, 2, 3, 4, 5, 6, 7, 8, 9, 10, 11, 12] (List.range 12)
    (fun _ => false) (fun k => if k ≤ 10 then some 0 else none) true
    (by rfl)
  refine ⟨?_, ?_⟩
  · rw [h.2.1]
    decide
  · rw [h.1.length_eq]
    decide


/-! ## C2 and C3: multi-station fusion -/

lemma noaaMerge_multi (sdfs : List (String × SDF)) (infos : List StationInfo)
    (qc : Bool) (h2 : 2 ≤ sdfs.length) :
    noaaMerge sdfs infos qc = (groupDates (combinedRows sdfs infos)).map
      (noaaFuseRow (combinedRows sdfs infos) (numericCols sdfs) qc) := by
  match sdfs with
  | [] => simp at h2
  | [sd] => simp at h2
  | a :: b :: rest => rfl

lemma openaqMerge_multi (sdfs : List (String × ODF)) (infos : List OInfo)
    (h2 : 2 ≤ sdfs.length) :
    openaqMerge sdfs infos = (groupDatesO (combinedRowsO sdfs infos)).map
      (openaqFuseRow (combinedRowsO sdfs infos) (numericColsO sdfs)) := by
  match sdfs with
  | [] => simp at h2
  | [sd] => simp at h2
  | a :: b :: rest => rfl

lemma combinedRows_weight (sdfs : List (String × SDF)) (infos : List StationInfo) :
    ∀ c ∈ combinedRows sdfs infos, c.weight = noaaWeight infos c.sid := by
  intro c hc
  rw [combinedRows] at hc
  rcases List.mem_flatten.1 hc with ⟨inner, hinner, hcin⟩
  rcases List.mem_map.1 hinner with ⟨sd, _, rfl⟩
  rcases List.mem_map.1 hcin with ⟨r, _, rfl⟩
  rfl

lemma combinedRowsO_weight (sdfs : List (String × ODF)) (infos : List OInfo) :
    ∀ c ∈ combinedRowsO sdfs infos, c.weight = openaqWeight infos c.sid := by
  intro c hc
  rw [combinedRowsO] at hc
  rcases List.mem_flatten.1 hc with ⟨inner, hinner, hcin⟩
  rcases List.mem_map.1 hinner with ⟨sd, _, rfl⟩
  rcases List.mem_map.1 hcin with ⟨r, _, rfl⟩
  rfl

lemma contributorsO_mem (crows : List OCRow) (d : ℕ) (f : Pollutant) :
    ∀ c ∈ contributorsO crows d f, c ∈ crows := by
  intro c hc
  exact (List.mem_filter.1 ((List.mem_filter.1 hc).1)).1

lemma score_ratio_bounds (num den : ℕ) (hle : num ≤ den) :
    0 ≤ (num : ℚ) / (den : ℚ) ∧ (num : ℚ) / (den : ℚ) ≤ 1 := by
  constructor
  · exact div_nonneg (by positivity) (by positivity)
  · rcases Nat.eq_zero_or_pos den with h0 | hpos
    · subst h0
      norm_num
    · rw [div_le_one (by exact_mod_cast hpos)]
      exact_mod_cast hle

lemma zip_map_self {α β : Type} (g : α → β) (l : List α) :
    ∀ pr ∈ (l.map g).zip l, pr.1 = g pr.2 := by
  induction l with
  | nil => intro pr hpr; simp at hpr
  | cons a t ih =>
    intro pr hpr
    rw [List.map_cons, List.zip_cons_cons] at hpr
    rcases List.mem_cons.1 hpr with rfl | h
    · rfl
    · exact ih pr h

/-- C2 (amended): on the weighted-average path (two or more surviving
stations) both fusers set `data_quality_score` to (tracked fields with
at least one non-null contributor that date) / (total tracked fields),
a value in [0,1]; a single surviving station short-circuits to a copy
of that station's records with `data_source = "single_station"` and
`data_quality_score` exactly 1.0 regardless of field coverage, the
NOAA fuser additionally setting per-field `source_count = 1` for every
present core column, while the OpenAQ fuser adds no `source_count`
columns. -/
theorem C2_data_quality_score
    (sdfs : List (String × SDF)) (infos : List StationInfo)
    (osdfs : List (String × ODF)) (oinfos : List OInfo)
    (sid : String) (df : SDF) (osid : String) (odf : ODF) :
    (2 ≤ sdfs.length → ∀ row ∈ noaaMerge sdfs infos true,
      row.data_quality_score = some ((((numericCols sdfs).filter (fun f =>
          !(contributors (combinedRows sdfs infos) row.date f).isEmpty)).length : ℚ) /
        ((numericCols sdfs).length : ℚ)) ∧
      ∃ q, row.data_quality_score = some q ∧ 0 ≤ q ∧ q ≤ 1) ∧
    (2 ≤ osdfs.length → ∀ row ∈ openaqMerge osdfs oinfos,
      row.data_quality_score = (((numericColsO osdfs).filter (fun f =>
          !(contributorsO (combinedRowsO osdfs oinfos) row.date f).isEmpty)).length : ℚ) /
        ((numericColsO osdfs).length : ℚ) ∧
      0 ≤ row.data_quality_score ∧ row.data_quality_score ≤ 1) ∧
    ((noaaMerge [(sid, df)] infos true).length = df.rows.length ∧
     (∀ row ∈ noaaMerge [(sid, df)] infos true,
       row.data_source = "single_station" ∧ row.data_quality_score = some 1 ∧
       row.station_count = 1 ∧
       ∀ f, (df.present f = true → row.srcCount f = some 1) ∧
            (df.present f = false → row.srcCount f = none)) ∧
     (∀ pr ∈ (noaaMerge [(sid, df)] infos true).zip df.rows,
       pr.1.date = pr.2.date ∧
       ∀ f, df.present f = true → pr.1.val f = pr.2.val f)) ∧
    ((openaqMerge [(osid, odf)] oinfos).length = odf.rows.length ∧
     ∀ row ∈ openaqMerge [(osid, odf)] oinfos,
       row.data_source = "single_station" ∧ row.data_quality_score = 1 ∧
       ∀ f, row.srcCount f = none) := by
  refine ⟨?_, ?_, ⟨?_, ?_, ?_⟩, ?_, ?_⟩
  · intro h2 row hrow
    rw [noaaMerge_multi sdfs infos true h2] at hrow
    rcases List.mem_map.1 hrow with ⟨d, _, rfl⟩
    have hdate : (noaaFuseRow (combinedRows sdfs infos) (numericCols sdfs) true d).date
        = d := rfl
    have hscore : (noaaFuseRow (combinedRows sdfs infos) (numericCols sdfs) true d
        ).data_quality_score =
        some (if 0 < (numericCols sdfs).length then
          ((((numericCols sdfs).filter (fun f =>
            !(contributors (combinedRows sdfs infos) d f).isEmpty)).length : ℚ) /
            ((numericCols sdfs).length : ℚ)) else 0) := rfl
    rw [hdate, hscore]
    have heq : (if 0 < (numericCols sdfs).length then
          ((((numericCols sdfs).filter (fun f =>
            !(contributors (combinedRows sdfs infos) d f).isEmpty)).length : ℚ) /
            ((numericCols sdfs).length : ℚ)) else 0) =
        ((((numericCols sdfs).filter (fun f =>
            !(contributors (combinedRows sdfs infos) d f).isEmpty)).length : ℚ) /
          ((numericCols sdfs).length : ℚ)) := by
      split
      · rfl
      · next hnot =>
        have h0 : (numericCols sdfs).length = 0 := by omega
        rw [h0]
        norm_num
    rw [heq]
    refine ⟨rfl, _, rfl, ?_⟩
    exact score_ratio_bounds _ _ (List.length_filter_le _ _)
  · intro h2 row hrow
    rw [openaqMerge_multi osdfs oinfos h2] at hrow
    rcases List.mem_map.1 hrow with ⟨d, _, rfl⟩
    have hdate : (openaqFuseRow (combinedRowsO osdfs oinfos) (numericColsO osdfs) d).date
        = d := rfl
    have hscore : (openaqFuseRow (combinedRowsO osdfs oinfos) (numericColsO osdfs) d
        ).data_quality_score =
        (if 0 < (numericColsO osdfs).length then
          ((((numericColsO osdfs).filter (fun f =>
            !(contributorsO (combinedRowsO osdfs oinfos) d f).isEmpty)).length : ℚ) /
            ((numericColsO osdfs).length : ℚ)) else 0) := rfl
    rw [hdate, hscore]
    have heq : (if 0 < (numericColsO osdfs).length then
          ((((numericColsO osdfs).filter (fun f =>
            !(contributorsO (combinedRowsO osdfs oinfos) d f).isEmpty)).length : ℚ) /
            ((numericColsO osdfs).length : ℚ)) else 0) =
        ((((numericColsO osdfs).filter (fun f =>
            !(contributorsO (combinedRowsO osdfs oinfos) d f).isEmpty)).length : ℚ) /
          ((numericColsO osdfs).length : ℚ)) := by
      split
      · rfl
      · next hnot =>
        have h0 : (numericColsO osdfs).length = 0 := by omega
        rw [h0]
        norm_num
    rw [heq]
    refine ⟨rfl, ?_⟩
    exact score_ratio_bounds _ _ (List.length_filter_le _ _)
  · simp [noaaMerge]
  · intro row hrow
    rcases List.mem_map.1 hrow with ⟨r, _, rfl⟩
    refine ⟨rfl, rfl, rfl, fun f => ⟨fun hp => ?_, fun hp => ?_⟩⟩
    · show (if df.present f then some 1 else none) = some 1
      rw [hp]
      rfl
    · show (if df.present f then some 1 else none) = none
      rw [hp]
      rfl
  · intro pr hpr
    have h1 := zip_map_self _ df.rows pr hpr
    rw [h1]
    refine ⟨rfl, fun f hp => ?_⟩
    show (if df.present f then pr.2.val f else none) = pr.2.val f
    rw [hp]
    rfl
  · simp [openaqMerge]
  · intro row hrow
    rcases List.mem_map.1 hrow with ⟨r, _, rfl⟩
    exact ⟨rfl, rfl, fun f => rfl⟩

/-- C2 (witness): a single surviving NOAA station with one day-0
record fuses to one `single_station` row scoring exactly 1.0 with
`temp_avg_c_source_count = 1`. -/
theorem C2_data_quality_score_witness :
    ((noaaMerge [("x", ⟨fun _ => true, [⟨0, fun _ => some 3, none, none, none⟩]⟩)]
        [] true).map (fun row => row.data_quality_score)) = [some 1] ∧
    ((noaaMerge [("x", ⟨fun _ => true, [⟨0, fun _ => some 3, none, none, none⟩]⟩)]
        [] true).map (fun row => row.srcCount WField.temp_avg_c)) = [some 1] ∧
    ((noaaMerge [("x", ⟨fun _ => true, [⟨0, fun _ => some 3, none, none, none⟩]⟩)]
        [] true).map (fun row => row.data_source)) = ["single_station"] := by
  obtain ⟨row, hrow⟩ : ∃ row, noaaMerge
      [("x", ⟨fun _ => true, [⟨0, fun _ => some 3, none, none, none⟩]⟩)] [] true =
      [row] := ⟨_, rfl⟩
  have h := (C2_data_quality_score [] [] [] [] "x"
    ⟨fun _ => true, [⟨0, fun _ => some 3, none, none, none⟩]⟩ "y"
    ⟨fun _ => true, []⟩).2.2.1.2.1 row (by rw [hrow]; exact List.mem_singleton.2 rfl)
  rw [hrow]
  simp only [List.map_singleton]
  exact ⟨by rw [h.2.1], by rw [(h.2.2.2 WField.temp_avg_c).1 rfl], by rw [h.1]⟩

/-- C2 (counterexample): a single surviving OpenAQ station whose frame
has `pm25` and `pm10` columns but only a `pm25` reading on its one day.
The claim requires per-field `source_count = 1` and
`data_quality_score` = (fields with a contributor)/(tracked fields)
= 1/2 for that date; the code sets no `source_count` at all on the
single-station path and scores the day exactly 1.0. -/
theorem C2_counterexample :
    ((openaqMerge [("s", ⟨fun f => decide (f = Pollutant.pm25 ∨ f = Pollutant.pm10),
        [⟨0, fun f => if f = Pollutant.pm25 then some 5 else none⟩]⟩)] []).map
      (fun row => row.srcCount Pollutant.pm25)) = [none] ∧
    ((openaqMerge [("s", ⟨fun f => decide (f = Pollutant.pm25 ∨ f = Pollutant.pm10),
        [⟨0, fun f => if f = Pollutant.pm25 then some 5 else none⟩]⟩)] []).map
      (fun row => row.data_quality_score)) = [1] ∧
    (none : Option ℕ) ≠ some 1 ∧ (1 : ℚ) ≠ 1 / 2 := by
  refine ⟨rfl, rfl, by simp, by norm_num⟩


lemma contributors_mem (crows : List CRow) (d : ℕ) (f : WField) :
    ∀ c ∈ contributors crows d f, c ∈ crows := by
  intro c hc
  exact (List.mem_filter.1 ((List.mem_filter.1 hc).1)).1

lemma openaqClaimWeight_eq (infos : List OInfo) (sid : String) :
    openaqClaimWeight infos sid = 1000 * openaqWeight infos sid := by
  rw [openaqClaimWeight, openaqWeight]
  rw [show (1 : ℚ) / 10 = 100 / 1000 by norm_num]
  rw [max_div_div_right (by norm_num : (0 : ℚ) ≤ 1000)]
  rw [one_div_div, mul_one_div]

lemma npAverageO_claim (oinfos : List OInfo) (l : List OCRow) (f : Pollutant)
    (hw : ∀ c ∈ l, c.weight = openaqWeight oinfos c.sid) :
    npAverageO l f =
      (l.map (fun c => openaqClaimWeight oinfos c.sid * (c.val f).getD 0)).sum /
      (l.map (fun c => openaqClaimWeight oinfos c.sid)).sum := by
  rw [npAverageO]
  have h1 : l.map (fun c => openaqClaimWeight oinfos c.sid * (c.val f).getD 0) =
      l.map (fun c => 1000 * (c.weight * (c.val f).getD 0)) :=
    List.map_congr_left (fun c hc => by
      rw [openaqClaimWeight_eq, hw c hc]
      ring)
  have h2 : l.map (fun c => openaqClaimWeight oinfos c.sid) =
      l.map (fun c => 1000 * c.weight) :=
    List.map_congr_left (fun c hc => by rw [openaqClaimWeight_eq, hw c hc])
  rw [h1, h2, List.sum_map_mul_left, List.sum_map_mul_left]
  rw [mul_div_mul_left _ _ (by norm_num : (1000 : ℚ) ≠ 0)]

/-- C3 (amended): on the weighted path (two or more stations), for each
tracked field and date both fusers set the fused value to the weighted
arithmetic mean over only the non-null contributors — the NOAA fuser
with weight `1 / max(distance_km, 0.1)` per station and the OpenAQ
fuser with per-station weights proportional to `1 / max(distance_km,
0.1)` (it computes `1 / max(distance_m, 100)` in metres, which yields
the identical mean) — and the fused value is null when no station
contributes.  The per-field `source_count` equals the number of
contributing stations whenever at least one station contributes; for a
field/date with zero contributors the NOAA fuser records
`source_count = 0` while the OpenAQ fuser omits the entry. -/
theorem C3_distance_weighted_mean
    (sdfs : List (String × SDF)) (infos : List StationInfo)
    (osdfs : List (String × ODF)) (oinfos : List OInfo) :
    (2 ≤ sdfs.length → ∀ row ∈ noaaMerge sdfs infos true, ∀ f ∈ numericCols sdfs,
      ((contributors (combinedRows sdfs infos) row.date f).isEmpty = false →
        row.val f = some
          (((contributors (combinedRows sdfs infos) row.date f).map
              (fun c => c.weight * (c.val f).getD 0)).sum /
            ((contributors (combinedRows sdfs infos) row.date f).map
              (fun c => c.weight)).sum) ∧
        row.srcCount f = some (contributors (combinedRows sdfs infos) row.date f).length ∧
        ∀ c ∈ contributors (combinedRows sdfs infos) row.date f,
          c.weight = 1 / max (distLookup infos c.sid) (1 / 10)) ∧
      ((contributors (combinedRows sdfs infos) row.date f).isEmpty = true →
        row.val f = none ∧ row.srcCount f = some 0)) ∧
    (2 ≤ osdfs.length → ∀ row ∈ openaqMerge osdfs oinfos, ∀ f ∈ numericColsO osdfs,
      ((contributorsO (combinedRowsO osdfs oinfos) row.date f).isEmpty = false →
        row.val f = some
          (((contributorsO (combinedRowsO osdfs oinfos) row.date f).map
              (fun c => openaqClaimWeight oinfos c.sid * (c.val f).getD 0)).sum /
            ((contributorsO (combinedRowsO osdfs oinfos) row.date f).map
              (fun c => openaqClaimWeight oinfos c.sid)).sum) ∧
        row.srcCount f =
          some (contributorsO (combinedRowsO osdfs oinfos) row.date f).length) ∧
      ((contributorsO (combinedRowsO osdfs oinfos) row.date f).isEmpty = true →
        row.val f = none ∧ row.srcCount f = none)) := by
  constructor
  · intro h2 row hrow f hf
    rw [noaaMerge_multi sdfs infos true h2] at hrow
    rcases List.mem_map.1 hrow with ⟨d, _, rfl⟩
    have hdate : (noaaFuseRow (combinedRows sdfs infos) (numericCols sdfs) true d).date
        = d := rfl
    rw [hdate]
    constructor
    · intro hne
      have hval : (noaaFuseRow (combinedRows sdfs infos) (numericCols sdfs) true d).val f
          = some (npAverage (contributors (combinedRows sdfs infos) d f) f) := by
        show (if f ∈ numericCols sdfs then _ else none) = _
        rw [if_pos hf]
        rw [if_neg (by rw [hne]; simp)]
      have hsrc : (noaaFuseRow (combinedRows sdfs infos) (numericCols sdfs) true d
          ).srcCount f
          = some (contributors (combinedRows sdfs infos) d f).length := by
        show (if true = true ∧ f ∈ numericCols sdfs then _ else none) = _
        rw [if_pos ⟨rfl, hf⟩]
      refine ⟨hval, hsrc, fun c hc => ?_⟩
      have := combinedRows_weight sdfs infos c
        (contributors_mem (combinedRows sdfs infos) d f c hc)
      rw [this]
      rfl
    · intro hemp
      have hval : (noaaFuseRow (combinedRows sdfs infos) (numericCols sdfs) true d).val f
          = none := by
        show (if f ∈ numericCols sdfs then _ else none) = _
        rw [if_pos hf, if_pos (by rw [hemp])]
      have hlen : (contributors (combinedRows sdfs infos) d f).length = 0 := by
        rw [List.isEmpty_iff] at hemp
        rw [hemp]
        rfl
      have hsrc : (noaaFuseRow (combinedRows sdfs infos) (numericCols sdfs) true d
          ).srcCount f = some 0 := by
        show (if true = true ∧ f ∈ numericCols sdfs then
            some (contributors (combinedRows sdfs infos) d f).length else none) = _
        rw [if_pos ⟨rfl, hf⟩, hlen]
      exact ⟨hval, hsrc⟩
  · intro h2 row hrow f hf
    rw [openaqMerge_multi osdfs oinfos h2] at hrow
    rcases List.mem_map.1 hrow with ⟨d, _, rfl⟩
    have hdate : (openaqFuseRow (combinedRowsO osdfs oinfos) (numericColsO osdfs) d).date
        = d := rfl
    rw [hdate]
    constructor
    · intro hne
      have hw : ∀ c ∈ contributorsO (combinedRowsO osdfs oinfos) d f,
          c.weight = openaqWeight oinfos c.sid := fun c hc =>
        combinedRowsO_weight osdfs oinfos c
          (contributorsO_mem (combinedRowsO osdfs oinfos) d f c hc)
      have hval : (openaqFuseRow (combinedRowsO osdfs oinfos) (numericColsO osdfs) d
          ).val f
          = some (npAverageO (contributorsO (combinedRowsO osdfs oinfos) d f) f) := by
        show (if f ∈ numericColsO osdfs then _ else none) = _
        rw [if_pos hf, if_neg (by rw [hne]; simp)]
      have hsrc : (openaqFuseRow (combinedRowsO osdfs oinfos) (numericColsO osdfs) d
          ).srcCount f
          = some (contributorsO (combinedRowsO osdfs oinfos) d f).length := by
        show (if f ∈ numericColsO osdfs then _ else none) = _
        rw [if_pos hf, if_neg (by rw [hne]; simp)]
      rw [hval, npAverageO_claim oinfos _ f hw]
      exact ⟨rfl, hsrc⟩
    · intro hemp
      have hval : (openaqFuseRow (combinedRowsO osdfs oinfos) (numericColsO osdfs) d
          ).val f = none := by
        show (if f ∈ numericColsO osdfs then _ else none) = _
        rw [if_pos hf, if_pos (by rw [hemp])]
      have hsrc : (openaqFuseRow (combinedRowsO osdfs oinfos) (numericColsO osdfs) d
          ).srcCount f = none := by
        show (if f ∈ numericColsO osdfs then _ else none) = _
        rw [if_pos hf, if_pos (by rw [hemp])]
      exact ⟨hval, hsrc⟩


/-- C3 (witness): two NOAA stations, the first with a single day-0
record carrying only `temp_avg_c`, the second with no rows; the fused
day-0 row records `temp_avg_c_source_count = 1`. -/
theorem C3_distance_weighted_mean_witness :
    (noaaMerge
      [("a", ⟨fun _ => true,
          [⟨0, fun f => if f = WField.temp_avg_c then some 10 else none,
            none, none, none⟩]⟩),
       ("b", ⟨fun _ => true, []⟩)]
      [⟨"a", some 1⟩, ⟨"b", some 3⟩] true).map
      (fun row => row.srcCount WField.temp_avg_c) = [some 1] := by
  have h := (C3_distance_weighted_mean
    [("a", ⟨fun _ => true,
        [⟨0, fun f => if f = WField.temp_avg_c then some 10 else none,
          none, none, none⟩]⟩),
     ("b", ⟨fun _ => true, []⟩)]
    [⟨"a", some 1⟩, ⟨"b", some 3⟩] [] []).1 (by norm_num)
  have heval : noaaMerge
      [("a", ⟨fun _ => true,
          [⟨0, fun f => if f = WField.temp_avg_c then some 10 else none,
            none, none, none⟩]⟩),
       ("b", ⟨fun _ => true, []⟩)]
      [⟨"a", some 1⟩, ⟨"b", some 3⟩] true =
      [noaaFuseRow (combinedRows
        [("a", ⟨fun _ => true,
            [⟨0, fun f => if f = WField.temp_avg_c then some 10 else none,
              none, none, none⟩]⟩),
         ("b", ⟨fun _ => true, []⟩)]
        [⟨"a", some 1⟩, ⟨"b", some 3⟩])
        (numericCols
          [("a", ⟨fun _ => true,
              [⟨0, fun f => if f = WField.temp_avg_c then some 10 else none,
                none, none, none⟩]⟩),
           ("b", ⟨fun _ => true, []⟩)]) true 0] := by
    rw [noaaMerge_multi _ _ _ (by norm_num)]
    rw [show groupDates (combinedRows
        [("a", ⟨fun _ => true,
            [⟨0, fun f => if f = WField.temp_avg_c then some 10 else none,
              none, none, none⟩]⟩),
         ("b", ⟨fun _ => true, []⟩)]
        [⟨"a", some 1⟩, ⟨"b", some 3⟩]) = [0] from by
      rw [groupDates]
      rw [show (combinedRows
          [("a", ⟨fun _ => true,
              [⟨0, fun f => if f = WField.temp_avg_c then some 10 else none,
                none, none, none⟩]⟩),
           ("b", ⟨fun _ => true, []⟩)]
          [⟨"a", some 1⟩, ⟨"b", some 3⟩]).map (fun c => c.date) = [0] from rfl]
      rw [show List.dedup [0] = [0] from by simp]
      exact List.mergeSort_singleton 0]
    rfl
  rw [heval, List.map_singleton]
  have hmem : noaaFuseRow (combinedRows
      [("a", ⟨fun _ => true,
          [⟨0, fun f => if f = WField.temp_avg_c then some 10 else none,
            none, none, none⟩]⟩),
       ("b", ⟨fun _ => true, []⟩)]
      [⟨"a", some 1⟩, ⟨"b", some 3⟩])
      (numericCols
        [("a", ⟨fun _ => true,
            [⟨0, fun f => if f = WField.temp_avg_c then some 10 else none,
              none, none, none⟩]⟩),
         ("b", ⟨fun _ => true, []⟩)]) true 0 ∈ noaaMerge
      [("a", ⟨fun _ => true,
          [⟨0, fun f => if f = WField.temp_avg_c then some 10 else none,
            none, none, none⟩]⟩),
       ("b", ⟨fun _ => true, []⟩)]
      [⟨"a", some 1⟩, ⟨"b", some 3⟩] true := by
    rw [heval]
    exact List.mem_singleton.2 rfl
  have h2 := (h _ hmem WField.temp_avg_c (by decide)).1 (by decide)
  rw [h2.2.1]
  decide

/-- C3 (counterexample): two OpenAQ stations whose frames both carry
`pm25` and `pm10` columns; only station "a" has a record (day 0, pm25
only), so field `pm10` has zero contributors on day 0.  The claim
requires `pm10_source_count` to equal 0 there; the code records no
`source_count` entry at all (the key is set only when the contributor
count is positive). -/
theorem C3_counterexample :
    ((openaqMerge
      [("a", ⟨fun f => decide (f = Pollutant.pm25 ∨ f = Pollutant.pm10),
          [⟨0, fun f => if f = Pollutant.pm25 then some 5 else none⟩]⟩),
       ("b", ⟨fun f => decide (f = Pollutant.pm25 ∨ f = Pollutant.pm10), []⟩)]
      []).map (fun row => row.srcCount Pollutant.pm10)) = [none] ∧
    (none : Option ℕ) ≠ some 0 := by
  refine ⟨?_, by simp⟩
  have heval : openaqMerge
      [("a", ⟨fun f => decide (f = Pollutant.pm25 ∨ f = Pollutant.pm10),
          [⟨0, fun f => if f = Pollutant.pm25 then some 5 else none⟩]⟩),
       ("b", ⟨fun f => decide (f = Pollutant.pm25 ∨ f = Pollutant.pm10), []⟩)]
      [] =
      [openaqFuseRow (combinedRowsO
        [("a", ⟨fun f => decide (f = Pollutant.pm25 ∨ f = Pollutant.pm10),
            [⟨0, fun f => if f = Pollutant.pm25 then some 5 else none⟩]⟩),
         ("b", ⟨fun f => decide (f = Pollutant.pm25 ∨ f = Pollutant.pm10), []⟩)] [])
        (numericColsO
          [("a", ⟨fun f => decide (f = Pollutant.pm25 ∨ f = Pollutant.pm10),
              [⟨0, fun f => if f = Pollutant.pm25 then some 5 else none⟩]⟩),
           ("b", ⟨fun f => decide (f = Pollutant.pm25 ∨ f = Pollutant.pm10), []⟩)]) 0] := by
    rw [openaqMerge_multi _ _ (by norm_num)]
    rw [show groupDatesO (combinedRowsO
        [("a", ⟨fun f => decide (f = Pollutant.pm25 ∨ f = Pollutant.pm10),
            [⟨0, fun f => if f = Pollutant.pm25 then some 5 else none⟩]⟩),
         ("b", ⟨fun f => decide (f = Pollutant.pm25 ∨ f = Pollutant.pm10), []⟩)] [])
        = [0] from by
      rw [groupDatesO]
      rw [show (combinedRowsO
          [("a", ⟨fun f => decide (f = Pollutant.pm25 ∨ f = Pollutant.pm10),
              [⟨0, fun f => if f = Pollutant.pm25 then some 5 else none⟩]⟩),
           ("b", ⟨fun f => decide (f = Pollutant.pm25 ∨ f = Pollutant.pm10), []⟩)]
          []).map (fun c => c.date) = [0] from rfl]
      rw [show List.dedup [0] = [0] from by simp]
      exact List.mergeSort_singleton 0]
    rfl
  rw [heval, List.map_singleton]
  decide


/-! ## C8: normalizer purity -/

/-- C8 (amended): the NOAA normalizer `process` copies its input first
and leaves the caller's frame unmodified; the OpenAQ `process_s3_data`
is not side-effect-free — with a `datetime` column present it writes the
parsed `date` column into the caller's frame (raw parses when some date
fails to parse or the frame is empty; day-normalized dates when every
date parses on a nonempty frame).  Without a `datetime` column the
input is returned untouched. -/
theorem C8_normalizer_frame_effects (df : RawNoaaDF) (sdf : S3DF) (p : Pollutant) :
    (noaaProcess df).1 = df ∧
    (sdf.hasDatetime = false → (openaqProcessS3 sdf p).1 = sdf) ∧
    (sdf.hasDatetime = true →
      ((0 < (sdf.rows.map (fun r => r.dt)).countP (fun c => c.isNone) ∨ sdf.rows = []) →
        (openaqProcessS3 sdf p).1 =
          { sdf with dateCol := some (sdf.rows.map (fun r => r.dt)) }) ∧
      ((sdf.rows.map (fun r => r.dt)).countP (fun c => c.isNone) = 0 → sdf.rows ≠ [] →
        (openaqProcessS3 sdf p).1 =
          { sdf with dateCol := some ((sdf.rows.map (fun r => r.dt)).map
              (Option.map (fun q => (q.1, 0)))) })) := by
  refine ⟨?_, ?_, ?_⟩
  · rw [noaaProcess]
    split <;> rfl
  · intro h
    rw [openaqProcessS3, h]
    rfl
  · intro h
    constructor
    · intro hcase
      rcases hcase with hpos | hnil
      · simp only [openaqProcessS3, h, Bool.not_true, Bool.false_eq_true, if_false]
        rw [if_pos hpos]
        split <;> rfl
      · simp only [openaqProcessS3, h, Bool.not_true, Bool.false_eq_true, if_false]
        rw [if_neg (by rw [hnil]; simp)]
        rw [if_pos (by rw [hnil]; rfl)]
    · intro hzero hne
      simp only [openaqProcessS3, h, Bool.not_true, Bool.false_eq_true, if_false]
      rw [if_neg (by omega)]
      rw [if_neg (by simpa using hne)]
      split <;> rfl

/-- C8 (witness): a frame without a `datetime` column passes through
untouched; a one-row frame whose datetime parses to day 7 at
time-of-day 5 comes back with the normalized date column (7, 0) written
into it. -/
theorem C8_normalizer_frame_effects_witness :
    (openaqProcessS3 ⟨false, true, false, [], none⟩ Pollutant.pm25).1 =
      ⟨false, true, false, [], none⟩ ∧
    (openaqProcessS3 ⟨true, true, false, [⟨some (7, 5), some 1, none⟩], none⟩
        Pollutant.pm25).1 =
      { (⟨true, true, false, [⟨some (7, 5), some 1, none⟩], none⟩ : S3DF) with
        dateCol := some (([⟨some (7, 5), some 1, none⟩] : List S3Row).map (fun r => r.dt)
          |>.map (Option.map (fun q => (q.1, 0)))) } := by
  have h1 := (C8_normalizer_frame_effects ⟨true, true, true, true, true, true, []⟩
    ⟨false, true, false, [], none⟩ Pollutant.pm25).2.1 rfl
  have h2 := ((C8_normalizer_frame_effects ⟨true, true, true, true, true, true, []⟩
    ⟨true, true, false, [⟨some (7, 5), some 1, none⟩], none⟩ Pollutant.pm25).2.2
    rfl).2 rfl (by simp)
  exact ⟨h1, h2⟩

/-- C8 (counterexample): the claim says the normalization step leaves
its input unmodified.  `process_s3_data` on a one-row frame (datetime
parsed as day 7, time 5; value 1; no units column) writes the date
column into the caller's frame in place: the input had no `date`
column, the frame after the call has one. -/
theorem C8_counterexample :
    (openaqProcessS3 ⟨true, true, false, [⟨some (7, 5), some 1, none⟩], none⟩
        Pollutant.pm25).1.dateCol = some [some (7, 0)] ∧
    (⟨true, true, false, [⟨some (7, 5), some 1, none⟩], none⟩ : S3DF).dateCol = none ∧
    (openaqProcessS3 ⟨true, true, false, [⟨some (7, 5), some 1, none⟩], none⟩
        Pollutant.pm25).1 ≠
      ⟨true, true, false, [⟨some (7, 5), some 1, none⟩], none⟩ := by
  refine ⟨rfl, rfl, fun hc => ?_⟩
  have hd := congrArg S3DF.dateCol hc
  rw [show (openaqProcessS3 ⟨true, true, false, [⟨some (7, 5), some 1, none⟩], none⟩
      Pollutant.pm25).1.dateCol = some [some (7, 0)] from rfl] at hd
  simp at hd

end WorldAQ
